import Mathlib

/-
  Verification development for the vlkEngine frame synchronization and
  presentation pipeline (src/renderer/swapchain.c, sync.c, command_buffer.h,
  vulkan_core.c). The Vulkan driver is modelled as an oracle: every driver
  call that can fail takes its VkResult (or a success flag) as an explicit
  parameter, and driver-created objects are logged in a small device model
  so that creation/destruction balance can be stated.
-/

namespace VlkEngine

/- VkResult codes used by the modelled modules (values from vulkan_core.h). -/

def VK_SUCCESS : Int := 0

def VK_SUBOPTIMAL_KHR : Int := 1000001003

def VK_ERROR_OUT_OF_DATE_KHR : Int := -1000001004

def VK_ERROR_OUT_OF_HOST_MEMORY : Int := -1

def VK_ERROR_OUT_OF_DEVICE_MEMORY : Int := -2

def VK_ERROR_DEVICE_LOST : Int := -4

/- VkPresentModeKHR values. -/

def VK_PRESENT_MODE_IMMEDIATE_KHR : Nat := 0

def VK_PRESENT_MODE_MAILBOX_KHR : Nat := 1

def VK_PRESENT_MODE_FIFO_KHR : Nat := 2

/- VkFormat / VkColorSpaceKHR values. -/

def VK_FORMAT_UNDEFINED : Nat := 0

def VK_FORMAT_B8G8R8A8_SRGB : Nat := 50

def VK_COLOR_SPACE_SRGB_NONLINEAR_KHR : Nat := 0

/- vulkan_core.h line 25 -/
def VE_MAX_FRAMES_IN_FLIGHT : Nat := 3

def UINT32_MAX : Nat := 4294967295

/-- VkSurfaceFormatKHR: a (format, colorSpace) pair. -/
structure VkSurfaceFormatKHR where
  format : Nat
  colorSpace : Nat
deriving DecidableEq

/-- VkExtent2D. -/
structure VkExtent2D where
  width : Nat
  height : Nat
deriving DecidableEq

/-- The fields of VkSurfaceCapabilitiesKHR read by swapchain.c. -/
structure VkSurfaceCapabilitiesKHR where
  minImageCount : Nat
  maxImageCount : Nat
  currentExtent : VkExtent2D
  minImageExtent : VkExtent2D
  maxImageExtent : VkExtent2D
deriving DecidableEq

/-- ve_swapchain_support: what ve_vulkan_query_swapchain_support reports. -/
structure SwapchainSupport where
  capabilities : VkSurfaceCapabilitiesKHR
  formats : List VkSurfaceFormatKHR
  present_modes : List Nat
deriving DecidableEq

/--
ve_swapchain_choose_surface_format (swapchain.c lines 281-307): first an
exact (format, colorSpace) match against the preferred format when one is
given, then the B8G8R8A8_SRGB + SRGB nonlinear pair, else formats[0].
The C loops that return the first matching element are List.find?.
-/
def ve_swapchain_choose_surface_format (formats : List VkSurfaceFormatKHR)
    (preferred : Option VkSurfaceFormatKHR) : VkSurfaceFormatKHR :=
  match (match preferred with
         | some p => formats.find? (fun (f : VkSurfaceFormatKHR) =>
             f.format == p.format && f.colorSpace == p.colorSpace)
         | none => none) with
  | some f => f
  | none =>
    match formats.find? (fun (f : VkSurfaceFormatKHR) =>
        f.format == VK_FORMAT_B8G8R8A8_SRGB && f.colorSpace == VK_COLOR_SPACE_SRGB_NONLINEAR_KHR) with
    | some f => f
    | none => formats.headD { format := 0, colorSpace := 0 }

/--
ve_swapchain_choose_present_mode (swapchain.c lines 309-336): mailbox when
triple buffering is requested and vsync disabled and mailbox is offered;
else immediate when vsync disabled and immediate is offered; else FIFO.
-/
def ve_swapchain_choose_present_mode (modes : List Nat) (vsync : Bool)
    (triple_buffering : Bool) : Nat :=
  match (if triple_buffering && !vsync then
           modes.find? (fun m => m == VK_PRESENT_MODE_MAILBOX_KHR)
         else none) with
  | some m => m
  | none =>
    match (if !vsync then modes.find? (fun m => m == VK_PRESENT_MODE_IMMEDIATE_KHR)
           else none) with
    | some m => m
    | none => VK_PRESENT_MODE_FIFO_KHR

/--
Bit length of a natural number (position of the highest set bit plus one),
computed with enough fuel for any value below 2 to the 64. Used to model the
binary32 rounding performed by the float casts in ve_swapchain_choose_extent.
-/
def bitLenAux : Nat → Nat → Nat
  | 0, _ => 0
  | fuel + 1, n => if n = 0 then 0 else bitLenAux fuel (n / 2) + 1

def bitLen (n : Nat) : Nat := bitLenAux 64 n

/--
The value of (float)n for a natural n: round-to-nearest-even to 24 bits of
mantissa. Naturals up to 2 to the 24 are exactly representable; above that
the low bits are rounded away (ties to even). fminf and fmaxf on such values
are exact, so they are modelled as min and max on the rounded values.
-/
def floatRoundNat (n : Nat) : Nat :=
  if n ≤ 16777216 then n
  else
    let e := bitLen n - 24
    let q := n / 2 ^ e
    let r := n % 2 ^ e
    if 2 * r > 2 ^ e ∨ (2 * r = 2 ^ e ∧ q % 2 = 1) then (q + 1) * 2 ^ e else q * 2 ^ e

/--
ve_swapchain_choose_extent (swapchain.c lines 338-362): the fixed current
extent of the surface when its width is not the UINT32_MAX sentinel; otherwise the
requested width and height are clamped with fmaxf/fminf after converting the
bounds and the request to float. The final uint32_t cast is modelled as
reduction mod 2 to the 32 (the in-range cases, the only ones defined in C,
are unchanged by it).
-/
def ve_swapchain_choose_extent (capabilities : VkSurfaceCapabilitiesKHR)
    (width height : Nat) : VkExtent2D :=
  if capabilities.currentExtent.width ≠ UINT32_MAX then
    capabilities.currentExtent
  else
    { width := max (floatRoundNat capabilities.minImageExtent.width)
        (min (floatRoundNat capabilities.maxImageExtent.width) (floatRoundNat width)) % 4294967296,
      height := max (floatRoundNat capabilities.minImageExtent.height)
        (min (floatRoundNat capabilities.maxImageExtent.height) (floatRoundNat height)) % 4294967296 }

/- Helper lemmas about the find? loops. -/

theorem find_beq_const (c : Nat) (l : List Nat) :
    l.find? (fun m => m == c) = if c ∈ l then some c else none := by
  induction l with
  | nil => simp
  | cons a t ih =>
    by_cases h : a = c
    · subst h
      simp [List.find?]
    · have hb : (a == c) = false := by simp [h]
      have hsymm : ¬ c = a := fun hh => h hh.symm
      simp [List.find?, hb, hsymm, ih, List.mem_cons]

theorem find_format_pair (p : VkSurfaceFormatKHR) (l : List VkSurfaceFormatKHR) :
    l.find? (fun f => f.format == p.format && f.colorSpace == p.colorSpace) =
      if p ∈ l then some p else none := by
  induction l with
  | nil => simp
  | cons a t ih =>
    by_cases h : a = p
    · subst h
      simp [List.find?]
    · have hne : (a.format == p.format && a.colorSpace == p.colorSpace) = false := by
        cases hx : (a.format == p.format && a.colorSpace == p.colorSpace)
        · rfl
        · have h1 : a.format = p.format ∧ a.colorSpace = p.colorSpace := by simpa using hx
          exfalso
          apply h
          cases a
          cases p
          simp_all
      have hsymm : ¬ p = a := fun hh => h hh.symm
      simp [List.find?, hne, hsymm, ih, List.mem_cons]

/-- The known-good fallback pair looked for by ve_swapchain_choose_surface_format. -/
def srgbFallbackFormat : VkSurfaceFormatKHR :=
  { format := VK_FORMAT_B8G8R8A8_SRGB, colorSpace := VK_COLOR_SPACE_SRGB_NONLINEAR_KHR }

/--
C4: for every list of available present modes and every (vsync,
triple_buffering) flag pair, ve_swapchain_choose_present_mode returns mailbox
when triple_buffering is set, vsync is clear, and mailbox is offered; else
immediate when vsync is clear and immediate is offered; else FIFO —
deterministically (it is a function of its inputs).
-/
theorem c4_present_mode_selection (modes : List Nat) (vsync triple_buffering : Bool) :
    ve_swapchain_choose_present_mode modes vsync triple_buffering =
      if triple_buffering = true ∧ vsync = false ∧ VK_PRESENT_MODE_MAILBOX_KHR ∈ modes then
        VK_PRESENT_MODE_MAILBOX_KHR
      else if vsync = false ∧ VK_PRESENT_MODE_IMMEDIATE_KHR ∈ modes then
        VK_PRESENT_MODE_IMMEDIATE_KHR
      else VK_PRESENT_MODE_FIFO_KHR := by
  cases vsync <;> cases triple_buffering <;>
    simp only [ve_swapchain_choose_present_mode, find_beq_const, Bool.and_self, Bool.not_false,
      Bool.not_true, Bool.and_false, Bool.false_and, Bool.true_and, Bool.and_true, if_true,
      if_false] <;>
    by_cases hm : VK_PRESENT_MODE_MAILBOX_KHR ∈ modes <;>
    by_cases hi : VK_PRESENT_MODE_IMMEDIATE_KHR ∈ modes <;>
    simp [hm, hi]

/--
C5: for every non-empty list of reported surface formats and optional
preferred format, ve_swapchain_choose_surface_format returns the exact
preferred format when it appears in the list (matching both format and color
space); otherwise the B8G8R8A8_SRGB / SRGB-nonlinear pair when that appears;
otherwise the first reported format.
-/
theorem c5_surface_format_selection (formats : List VkSurfaceFormatKHR)
    (preferred : Option VkSurfaceFormatKHR) (_hne : formats ≠ []) :
    (∀ p, preferred = some p → p ∈ formats →
        ve_swapchain_choose_surface_format formats preferred = p) ∧
    ((∀ p, preferred = some p → p ∉ formats) → srgbFallbackFormat ∈ formats →
        ve_swapchain_choose_surface_format formats preferred = srgbFallbackFormat) ∧
    ((∀ p, preferred = some p → p ∉ formats) → srgbFallbackFormat ∉ formats →
        ve_swapchain_choose_surface_format formats preferred =
          formats.headD { format := 0, colorSpace := 0 }) := by
  have hsrgb : formats.find? (fun (f : VkSurfaceFormatKHR) =>
      f.format == VK_FORMAT_B8G8R8A8_SRGB && f.colorSpace == VK_COLOR_SPACE_SRGB_NONLINEAR_KHR) =
      if srgbFallbackFormat ∈ formats then some srgbFallbackFormat else none :=
    find_format_pair srgbFallbackFormat formats
  refine ⟨?_, ?_, ?_⟩
  · intro p hp hmem
    subst hp
    simp [ve_swapchain_choose_surface_format, find_format_pair, hmem]
  · intro hnp hmem
    cases preferred with
    | none => simp [ve_swapchain_choose_surface_format, hsrgb, hmem]
    | some p =>
      have : p ∉ formats := hnp p rfl
      simp [ve_swapchain_choose_surface_format, find_format_pair, this, hsrgb, hmem]
  · intro hnp hmem
    cases preferred with
    | none => simp [ve_swapchain_choose_surface_format, hsrgb, hmem]
    | some p =>
      have : p ∉ formats := hnp p rfl
      simp [ve_swapchain_choose_surface_format, find_format_pair, this, hsrgb, hmem]

/--
C5 witness: a concrete run of the format selection. The preferred format is
absent, the sRGB fallback pair is present, and the fallback is returned.
-/
theorem c5_surface_format_selection_witness :
    ve_swapchain_choose_surface_format
        [{ format := 44, colorSpace := 0 }, { format := 50, colorSpace := 0 }]
        (some { format := 97, colorSpace := 0 }) = srgbFallbackFormat :=
  (c5_surface_format_selection
      [{ format := 44, colorSpace := 0 }, { format := 50, colorSpace := 0 }]
      (some { format := 97, colorSpace := 0 }) (by decide)).2.1
    (by intro p hp; cases hp; decide) (by decide)

theorem floatRoundNat_eq_of_le {n : Nat} (h : n ≤ 16777216) : floatRoundNat n = n := by
  simp [floatRoundNat, h]

/--
Surface capabilities with an unbounded current extent whose minimum width,
16777217 = 2 to the 24 plus 1, is not exactly representable in binary32: the
float clamp in ve_swapchain_choose_extent rounds it to 16777216 and returns a
width below the reported minimum.
-/
def capsFloatEdge : VkSurfaceCapabilitiesKHR :=
  { minImageCount := 1, maxImageCount := 0,
    currentExtent := { width := UINT32_MAX, height := UINT32_MAX },
    minImageExtent := { width := 16777217, height := 1 },
    maxImageExtent := { width := 100000000, height := 1000 } }

/--
C8 counterexample: it is not true that whenever the surface reports the
unbounded sentinel, the requested width is clamped into the reported
min/max range: with a minimum width of 16777217 and a requested width of
100, ve_swapchain_choose_extent returns 16777216, outside the range,
because the clamp is computed in single-precision float arithmetic.
-/
theorem c8_extent_counterexample :
    ¬ (∀ (capabilities : VkSurfaceCapabilitiesKHR) (width height : Nat),
        capabilities.currentExtent.width = UINT32_MAX →
        (ve_swapchain_choose_extent capabilities width height).width =
          max capabilities.minImageExtent.width
            (min capabilities.maxImageExtent.width width)) := by
  intro h
  have hc := h capsFloatEdge 100 1 (by decide)
  exact absurd hc (by decide)

/--
C8 amended: if the surface reports a fixed current extent (width not equal
to the UINT32_MAX sentinel) that extent is used verbatim; otherwise each
requested dimension is clamped in single-precision arithmetic, and whenever
the reported min/max bounds and the requested dimension are at most
2 to the 24 (hence exactly representable as floats) the result equals the
exact integer clamp into the reported min/max range.
-/
theorem c8_extent_selection (capabilities : VkSurfaceCapabilitiesKHR) (width height : Nat) :
    (capabilities.currentExtent.width ≠ UINT32_MAX →
      ve_swapchain_choose_extent capabilities width height = capabilities.currentExtent) ∧
    (capabilities.currentExtent.width = UINT32_MAX →
      (capabilities.minImageExtent.width ≤ 16777216 →
       capabilities.maxImageExtent.width ≤ 16777216 → width ≤ 16777216 →
        (ve_swapchain_choose_extent capabilities width height).width =
          max capabilities.minImageExtent.width
            (min capabilities.maxImageExtent.width width)) ∧
      (capabilities.minImageExtent.height ≤ 16777216 →
       capabilities.maxImageExtent.height ≤ 16777216 → height ≤ 16777216 →
        (ve_swapchain_choose_extent capabilities width height).height =
          max capabilities.minImageExtent.height
            (min capabilities.maxImageExtent.height height))) := by
  constructor
  · intro h
    simp [ve_swapchain_choose_extent, h]
  · intro h
    constructor
    · intro h1 h2 h3
      have hb : max capabilities.minImageExtent.width
          (min capabilities.maxImageExtent.width width) < 4294967296 := by
        have : min capabilities.maxImageExtent.width width ≤ 16777216 :=
          le_trans (min_le_right _ _) h3
        have := max_le h1 this
        omega
      simp [ve_swapchain_choose_extent, h, floatRoundNat_eq_of_le h1,
        floatRoundNat_eq_of_le h2, floatRoundNat_eq_of_le h3, Nat.mod_eq_of_lt hb]
    · intro h1 h2 h3
      have hb : max capabilities.minImageExtent.height
          (min capabilities.maxImageExtent.height height) < 4294967296 := by
        have : min capabilities.maxImageExtent.height height ≤ 16777216 :=
          le_trans (min_le_right _ _) h3
        have := max_le h1 this
        omega
      simp [ve_swapchain_choose_extent, h, floatRoundNat_eq_of_le h1,
        floatRoundNat_eq_of_le h2, floatRoundNat_eq_of_le h3, Nat.mod_eq_of_lt hb]

/--
C8 witness: a concrete in-range clamp. The surface defers to the requested
size, the request 5000 exceeds the maximum 2000, and the clamp returns 2000.
-/
theorem c8_extent_selection_witness :
    (ve_swapchain_choose_extent
        { minImageCount := 1, maxImageCount := 0,
          currentExtent := { width := UINT32_MAX, height := UINT32_MAX },
          minImageExtent := { width := 10, height := 10 },
          maxImageExtent := { width := 2000, height := 2000 } } 5000 300).width =
      max 10 (min 2000 5000) :=
  ((c8_extent_selection
      { minImageCount := 1, maxImageCount := 0,
        currentExtent := { width := UINT32_MAX, height := UINT32_MAX },
        minImageExtent := { width := 10, height := 10 },
        maxImageExtent := { width := 2000, height := 2000 } } 5000 300).2
    (by decide)).1 (by decide) (by decide) (by decide)

/--
A log of driver-side object creation and destruction. Each vkCreate call
hands out a fresh id and appends it to the created log; each vkDestroy call
appends the destroyed id to the destroyed log. An object created by a call
survives the call when its id was appended to the created log but not to the
destroyed log.
-/
structure Device where
  nextId : Nat
  created : List Nat
  destroyed : List Nat
deriving DecidableEq

def Device.create (d : Device) : Nat × Device :=
  (d.nextId, { nextId := d.nextId + 1, created := d.created ++ [d.nextId],
               destroyed := d.destroyed })

def Device.destroy (d : Device) (id : Nat) : Device :=
  { d with destroyed := d.destroyed ++ [id] }

def destroyAll (d : Device) (ids : List Nat) : Device :=
  ids.foldl Device.destroy d

def emptyDevice : Device := { nextId := 0, created := [], destroyed := [] }

/--
The ve_swapchain global (swapchain.h lines 33-43). Arrays are Option lists:
none models a NULL pointer, and the lists hold the driver object ids. The
swapchain handle itself is tracked as a Bool (handle not VK_NULL_HANDLE).
-/
structure VeSwapchain where
  hasSwapchain : Bool
  images : Option (List Nat)
  image_views : Option (List Nat)
  framebuffers : Option (List Nat)
  format : Nat
  extent : VkExtent2D
  image_count : Nat
  current_image_index : Nat
  out_of_date : Bool
deriving DecidableEq

/-- The module statics of swapchain.c: g_swapchain and g_owns_framebuffers. -/
structure SwapModule where
  g_swapchain : VeSwapchain
  g_owns_framebuffers : Bool
deriving DecidableEq

/-- ve_swapchain_config (swapchain.h lines 20-28), the fields the model reads. -/
structure VeSwapchainConfig where
  width : Nat
  height : Nat
  vsync : Bool
  triple_buffering : Bool
  preferred_format : VkSurfaceFormatKHR
deriving DecidableEq

/--
ve_swapchain_destroy (swapchain.c lines 126-172): destroys owned
framebuffers, destroys image views, frees the arrays and the images array,
destroys the chain handle, and zeroes image_count and current_image_index.
It does not touch out_of_date, format, or extent, and it leaves
g_owns_framebuffers as it is. The framebuffer pass (destroy only when owned;
swapchain.c lines 135-145 and again 421-428) and the view pass are split out
as named helpers.
-/
def freeOwnedFramebuffers (m : SwapModule) (d : Device) : Device :=
  match m.g_swapchain.framebuffers with
  | some fbs => if m.g_owns_framebuffers then destroyAll d fbs else d
  | none => d

def freeImageViews (m : SwapModule) (d : Device) : Device :=
  match m.g_swapchain.image_views with
  | some vs => destroyAll d vs
  | none => d

def ve_swapchain_destroy (m : SwapModule) (d : Device) : SwapModule × Device :=
  let d := freeOwnedFramebuffers m d
  let d := freeImageViews m d
  ({ m with g_swapchain.framebuffers := none,
            g_swapchain.image_views := none,
            g_swapchain.images := none,
            g_swapchain.hasSwapchain := false,
            g_swapchain.image_count := 0,
            g_swapchain.current_image_index := 0 }, d)

/--
The creation loop shared in shape by ve_swapchain_create_image_views
(swapchain.c lines 375-410) and ve_swapchain_create_framebuffers (lines
439-471): for each index, the driver either creates an object (result
VK_SUCCESS from the oracle) or fails; on the first failure every object
created by this loop so far is destroyed in index order and the failing
result is reported.
-/
def swapchainObjectLoop (res : Nat → Int) :
    List Nat → Device → List Nat → Device × Except Int (List Nat)
  | [], d, acc => (d, Except.ok acc.reverse)
  | i :: rest, d, acc =>
    if res i = VK_SUCCESS then
      swapchainObjectLoop res rest (Device.create d).2 ((Device.create d).1 :: acc)
    else
      (destroyAll d acc.reverse, Except.error (res i))

/--
ve_swapchain_create_image_views (swapchain.c lines 364-413). allocOk models
the VE_ALLOCATE_TAG of the view array; viewRes i is the VkResult of
vkCreateImageView for image i. On failure the array is freed and nulled and
the error returned; on success image_views holds one view per image.
-/
def ve_swapchain_create_image_views (m : SwapModule) (d : Device) (allocOk : Bool)
    (viewRes : Nat → Int) : SwapModule × Device × Int :=
  if allocOk = false then
    ({ m with g_swapchain.image_views := none }, d, VK_ERROR_OUT_OF_HOST_MEMORY)
  else
    match swapchainObjectLoop viewRes (List.range m.g_swapchain.image_count) d [] with
    | (d, Except.ok vs) => ({ m with g_swapchain.image_views := some vs }, d, VK_SUCCESS)
    | (d, Except.error e) => ({ m with g_swapchain.image_views := none }, d, e)

/--
ve_swapchain_create_framebuffers (swapchain.c lines 415-474): first destroys
old owned framebuffers, then allocates the array (allocOk), marks the module
as owning its framebuffers, and runs the per-image creation loop with the
same rollback-on-first-failure shape as the view loop.
-/
def ve_swapchain_create_framebuffers (m : SwapModule) (d : Device) (allocOk : Bool)
    (fbRes : Nat → Int) : SwapModule × Device × Int :=
  let d := freeOwnedFramebuffers m d
  if allocOk = false then
    ({ m with g_swapchain.framebuffers := none }, d, VK_ERROR_OUT_OF_HOST_MEMORY)
  else
    let m := { m with g_owns_framebuffers := true }
    match swapchainObjectLoop fbRes (List.range m.g_swapchain.image_count) d [] with
    | (d, Except.ok fbs) => ({ m with g_swapchain.framebuffers := some fbs }, d, VK_SUCCESS)
    | (d, Except.error e) => ({ m with g_swapchain.framebuffers := none }, d, e)

/--
The driver outcomes consumed by one ve_swapchain_create call: the VkResult of
vkCreateSwapchainKHR, the image count reported by vkGetSwapchainImagesKHR,
and the allocation/creation outcomes of the image-view pass.
-/
structure CreateOracle where
  createResult : Int
  imageCount : Nat
  viewAllocOk : Bool
  viewRes : Nat → Int

/--
ve_swapchain_create (swapchain.c lines 24-124): destroys any existing chain,
chooses format / present mode / extent, requests minImageCount + 1 images
clamped to the declared maximum, creates the chain, queries the images,
creates the image views (destroying everything on view failure), and on
success clears out_of_date and nulls framebuffers. The swapchain images are
owned by the chain, so they are modelled as plain indices, not device log
entries. ve_swapchain_build_images_and_views is the tail of the function
from line 102 on (store images, create views, unwind on failure, clear the
flag on success); ve_swapchain_create is the whole function.
-/
def ve_swapchain_build_images_and_views (m : SwapModule) (d : Device) (o : CreateOracle) :
    SwapModule × Device × Int :=
  let m := { m with g_swapchain.images := some (List.range o.imageCount),
                    g_swapchain.image_count := o.imageCount }
  let mdr := ve_swapchain_create_image_views m d o.viewAllocOk o.viewRes
  if mdr.2.2 ≠ VK_SUCCESS then
    ((ve_swapchain_destroy mdr.1 mdr.2.1).1, (ve_swapchain_destroy mdr.1 mdr.2.1).2, mdr.2.2)
  else
    ({ mdr.1 with g_swapchain.out_of_date := false,
                  g_swapchain.framebuffers := none }, mdr.2.1, VK_SUCCESS)

def ve_swapchain_create (m : SwapModule) (d : Device) (config : VeSwapchainConfig)
    (support : SwapchainSupport) (o : CreateOracle) : SwapModule × Device × Int :=
  let md := if m.g_swapchain.hasSwapchain then ve_swapchain_destroy m d else (m, d)
  let surface_format :=
    if config.preferred_format.format ≠ VK_FORMAT_UNDEFINED then
      ve_swapchain_choose_surface_format support.formats (some config.preferred_format)
    else
      ve_swapchain_choose_surface_format support.formats none
  let _present_mode := ve_swapchain_choose_present_mode support.present_modes
    config.vsync config.triple_buffering
  let extent := ve_swapchain_choose_extent support.capabilities config.width config.height
  let image_count := support.capabilities.minImageCount + 1
  let _image_count := if support.capabilities.maxImageCount > 0 ∧
      image_count > support.capabilities.maxImageCount then
    support.capabilities.maxImageCount else image_count
  if o.createResult ≠ VK_SUCCESS then
    (md.1, md.2, o.createResult)
  else
    ve_swapchain_build_images_and_views
      { md.1 with g_swapchain.hasSwapchain := true,
                  g_swapchain.format := surface_format.format,
                  g_swapchain.extent := extent } md.2 o

/--
ve_swapchain_recreate (swapchain.c lines 174-183): waits for the device to
go idle (no state in this model) and calls ve_swapchain_create.
-/
def ve_swapchain_recreate (m : SwapModule) (d : Device) (config : VeSwapchainConfig)
    (support : SwapchainSupport) (o : CreateOracle) : SwapModule × Device × Int :=
  ve_swapchain_create m d config support o

/--
ve_swapchain_acquire_next_image (swapchain.c lines 185-208). acq is the
VkResult of vkAcquireNextImageKHR and imageIndex the index it wrote. An
out-of-date driver result sets the flag and is reported as suboptimal; a
suboptimal driver result sets the flag and is reported as success (the frame
can still present); anything else passes through with the flag unchanged.
-/
def ve_swapchain_acquire_next_image (m : SwapModule) (acq : Int) (imageIndex : Nat) :
    SwapModule × Int :=
  let m := { m with g_swapchain.current_image_index := imageIndex }
  if acq = VK_ERROR_OUT_OF_DATE_KHR then
    ({ m with g_swapchain.out_of_date := true }, VK_SUBOPTIMAL_KHR)
  else if acq = VK_SUBOPTIMAL_KHR then
    ({ m with g_swapchain.out_of_date := true }, VK_SUCCESS)
  else
    (m, acq)

/--
ve_swapchain_present (swapchain.c lines 210-232). pres is the VkResult of
vkQueuePresentKHR. Out-of-date or suboptimal sets the flag; every other
result — including plain success — clears it.
-/
def ve_swapchain_present (m : SwapModule) (pres : Int) : SwapModule × Int :=
  if pres = VK_ERROR_OUT_OF_DATE_KHR ∨ pres = VK_SUBOPTIMAL_KHR then
    ({ m with g_swapchain.out_of_date := true }, pres)
  else
    ({ m with g_swapchain.out_of_date := false }, pres)

/-- The operations of the acquire / present / rebuild protocol. -/
inductive SwapOp where
  | acquire (underlying : Int) (imageIndex : Nat)
  | present (underlying : Int)
  | recreate (config : VeSwapchainConfig) (support : SwapchainSupport) (o : CreateOracle)

/-- One protocol step; the Int is the VkResult the operation returns. -/
def swapStep (m : SwapModule) (d : Device) : SwapOp → SwapModule × Device × Int
  | SwapOp.acquire r idx =>
    ((ve_swapchain_acquire_next_image m r idx).1, d, (ve_swapchain_acquire_next_image m r idx).2)
  | SwapOp.present r =>
    ((ve_swapchain_present m r).1, d, (ve_swapchain_present m r).2)
  | SwapOp.recreate config support o => ve_swapchain_recreate m d config support o

/- Swapchain state used as the concrete starting point of several runs below:
   a valid chain whose out-of-date flag has been raised. -/
def staleSwapModule : SwapModule :=
  { g_swapchain := { hasSwapchain := true, images := some [0], image_views := some [0],
                     framebuffers := none, format := VK_FORMAT_B8G8R8A8_SRGB,
                     extent := { width := 640, height := 480 }, image_count := 1,
                     current_image_index := 0, out_of_date := true },
    g_owns_framebuffers := false }

/--
C2 counterexample: the acquire wrapper does not report the three underlying
driver outcomes as three distinct results. On an underlying
VK_SUBOPTIMAL_KHR it returns VK_SUCCESS — indistinguishable from plain
success — and on an underlying VK_ERROR_OUT_OF_DATE_KHR it returns
VK_SUBOPTIMAL_KHR, not an out-of-date code.
-/
theorem c2_acquire_counterexample :
    ¬ (∀ (m : SwapModule) (idx : Nat),
        (ve_swapchain_acquire_next_image m VK_SUBOPTIMAL_KHR idx).2 = VK_SUBOPTIMAL_KHR ∧
        (ve_swapchain_acquire_next_image m VK_ERROR_OUT_OF_DATE_KHR idx).2 =
          VK_ERROR_OUT_OF_DATE_KHR) := by
  intro h
  have hc := (h staleSwapModule 0).1
  exact absurd hc (by decide)

/--
C2 amended: ve_swapchain_acquire_next_image sets the out-of-date flag to
true exactly when the underlying acquire reports suboptimal or out-of-date
(the flag is unchanged otherwise); it returns Suboptimal for an underlying
out-of-date, plain success for an underlying suboptimal (the frame can still
present), and passes every other underlying result through unchanged.
-/
theorem c2_acquire_amended (m : SwapModule) (acq : Int) (idx : Nat) :
    ((ve_swapchain_acquire_next_image m acq idx).1.g_swapchain.out_of_date = true ↔
      (acq = VK_ERROR_OUT_OF_DATE_KHR ∨ acq = VK_SUBOPTIMAL_KHR ∨
        m.g_swapchain.out_of_date = true)) ∧
    (acq = VK_ERROR_OUT_OF_DATE_KHR →
      (ve_swapchain_acquire_next_image m acq idx).2 = VK_SUBOPTIMAL_KHR) ∧
    (acq = VK_SUBOPTIMAL_KHR →
      (ve_swapchain_acquire_next_image m acq idx).2 = VK_SUCCESS) ∧
    (acq ≠ VK_ERROR_OUT_OF_DATE_KHR → acq ≠ VK_SUBOPTIMAL_KHR →
      (ve_swapchain_acquire_next_image m acq idx).2 = acq) := by
  by_cases h1 : acq = VK_ERROR_OUT_OF_DATE_KHR
  · simp [ve_swapchain_acquire_next_image, h1, VK_ERROR_OUT_OF_DATE_KHR,
      VK_SUBOPTIMAL_KHR, VK_SUCCESS]
  · by_cases h2 : acq = VK_SUBOPTIMAL_KHR
    · simp [ve_swapchain_acquire_next_image, h2, VK_ERROR_OUT_OF_DATE_KHR,
        VK_SUBOPTIMAL_KHR, VK_SUCCESS]
    · simp [ve_swapchain_acquire_next_image, h1, h2]

/--
C2 witness: a concrete acquire with an underlying suboptimal result returns
plain success while raising the out-of-date flag.
-/
theorem c2_acquire_amended_witness :
    (ve_swapchain_acquire_next_image staleSwapModule VK_SUBOPTIMAL_KHR 0).2 = VK_SUCCESS ∧
    (ve_swapchain_acquire_next_image staleSwapModule VK_SUBOPTIMAL_KHR 0).1.g_swapchain.out_of_date = true :=
  ⟨(c2_acquire_amended staleSwapModule VK_SUBOPTIMAL_KHR 0).2.2.1 rfl,
   ((c2_acquire_amended staleSwapModule VK_SUBOPTIMAL_KHR 0).1).mpr (Or.inr (Or.inl rfl))⟩

theorem create_image_views_out_of_date (m : SwapModule) (d : Device) (allocOk : Bool)
    (viewRes : Nat → Int) :
    (ve_swapchain_create_image_views m d allocOk viewRes).1.g_swapchain.out_of_date =
      m.g_swapchain.out_of_date := by
  unfold ve_swapchain_create_image_views
  split
  · rfl
  · split <;> rfl

theorem destroy_out_of_date (m : SwapModule) (d : Device) :
    (ve_swapchain_destroy m d).1.g_swapchain.out_of_date = m.g_swapchain.out_of_date := rfl

/--
ve_swapchain_create either succeeds and clears the out-of-date flag, or
fails and leaves the flag exactly as it was (the destroy passes on its
failure paths never touch the flag).
-/
theorem build_images_out_of_date_spec (m : SwapModule) (d : Device) (o : CreateOracle) :
    ((ve_swapchain_build_images_and_views m d o).2.2 = VK_SUCCESS ∧
      (ve_swapchain_build_images_and_views m d o).1.g_swapchain.out_of_date = false) ∨
    ((ve_swapchain_build_images_and_views m d o).2.2 ≠ VK_SUCCESS ∧
      (ve_swapchain_build_images_and_views m d o).1.g_swapchain.out_of_date =
        m.g_swapchain.out_of_date) := by
  simp only [ve_swapchain_build_images_and_views]
  split
  · right
    refine ⟨by assumption, ?_⟩
    rw [destroy_out_of_date, create_image_views_out_of_date]
  · left
    exact ⟨rfl, rfl⟩

/--
ve_swapchain_create either succeeds and clears the out-of-date flag, or
fails and leaves the flag exactly as it was (the destroy passes on its
failure paths never touch the flag).
-/
theorem create_out_of_date_spec (m : SwapModule) (d : Device) (config : VeSwapchainConfig)
    (support : SwapchainSupport) (o : CreateOracle) :
    ((ve_swapchain_create m d config support o).2.2 = VK_SUCCESS ∧
      (ve_swapchain_create m d config support o).1.g_swapchain.out_of_date = false) ∨
    ((ve_swapchain_create m d config support o).2.2 ≠ VK_SUCCESS ∧
      (ve_swapchain_create m d config support o).1.g_swapchain.out_of_date =
        m.g_swapchain.out_of_date) := by
  have hbase : ∀ (mm : SwapModule) (dd : Device),
      mm.g_swapchain.out_of_date = m.g_swapchain.out_of_date →
      ((ve_swapchain_build_images_and_views mm dd o).2.2 = VK_SUCCESS ∧
        (ve_swapchain_build_images_and_views mm dd o).1.g_swapchain.out_of_date = false) ∨
      ((ve_swapchain_build_images_and_views mm dd o).2.2 ≠ VK_SUCCESS ∧
        (ve_swapchain_build_images_and_views mm dd o).1.g_swapchain.out_of_date =
          m.g_swapchain.out_of_date) := by
    intro mm dd hmm
    rcases build_images_out_of_date_spec mm dd o with ⟨h1, h2⟩ | ⟨h1, h2⟩
    · exact Or.inl ⟨h1, h2⟩
    · exact Or.inr ⟨h1, by rw [h2, hmm]⟩
  by_cases hsw : m.g_swapchain.hasSwapchain = true <;>
    by_cases hc : o.createResult = VK_SUCCESS <;>
    simp only [ve_swapchain_create, hsw, hc, if_true, if_false, Bool.false_eq_true,
      ne_eq, not_true_eq_false, not_false_eq_true, ite_true, ite_false]
  · exact hbase _ _ rfl
  · exact Or.inr (And.intro (by simp [hc]) (by trivial))
  · exact hbase _ _ rfl
  · exact Or.inr (And.intro (by simp [hc]) (by trivial))

/--
C1 counterexample: an operation other than a successful rebuild clears the
out-of-date flag. From a chain whose flag is raised, a present whose
underlying queue-present result is plain success resets the flag to false,
yet a present is not a rebuild.
-/
theorem c1_flag_counterexample :
    ¬ (∀ (m : SwapModule) (d : Device) (op : SwapOp),
        m.g_swapchain.out_of_date = true →
        (swapStep m d op).1.g_swapchain.out_of_date = false →
        ∃ config support o, op = SwapOp.recreate config support o ∧
          (swapStep m d op).2.2 = VK_SUCCESS) := by
  intro h
  obtain ⟨config, support, o, heq, -⟩ :=
    h staleSwapModule emptyDevice (SwapOp.present VK_SUCCESS) (by decide) (by decide)
  cases heq

/--
C1 amended: the out-of-date flag transitions from true to false only through
a successful chain rebuild (ve_swapchain_recreate / ve_swapchain_create
returning VK_SUCCESS) or through a present whose underlying queue-present
result is neither OutOfDate nor Suboptimal — ve_swapchain_present clears the
flag on every such result, including plain success. No acquire ever clears
the flag.
-/
theorem c1_flag_amended (m : SwapModule) (d : Device) (op : SwapOp)
    (hpre : m.g_swapchain.out_of_date = true)
    (hpost : (swapStep m d op).1.g_swapchain.out_of_date = false) :
    (∃ config support o, op = SwapOp.recreate config support o ∧
      (swapStep m d op).2.2 = VK_SUCCESS) ∨
    (∃ r, op = SwapOp.present r ∧ r ≠ VK_ERROR_OUT_OF_DATE_KHR ∧ r ≠ VK_SUBOPTIMAL_KHR) := by
  cases op with
  | acquire r idx =>
    exfalso
    simp only [swapStep, ve_swapchain_acquire_next_image] at hpost
    split at hpost
    · simp at hpost
    · split at hpost
      · simp at hpost
      · simp at hpost
        exact absurd hpre (by simp [hpost])
  | present r =>
    by_cases hr : r = VK_ERROR_OUT_OF_DATE_KHR ∨ r = VK_SUBOPTIMAL_KHR
    · exfalso
      simp [swapStep, ve_swapchain_present, hr] at hpost
    · right
      rw [not_or] at hr
      exact ⟨r, rfl, hr.1, hr.2⟩
  | recreate config support o =>
    left
    have hs : swapStep m d (SwapOp.recreate config support o) =
        ve_swapchain_create m d config support o := rfl
    rcases create_out_of_date_spec m d config support o with ⟨hr, -⟩ | ⟨-, hflag⟩
    · exact ⟨config, support, o, rfl, by rw [hs]; exact hr⟩
    · exfalso
      rw [hs] at hpost
      rw [hpost] at hflag
      exact absurd hpre (by simp [← hflag])

/- Concrete inputs for the C1 witness: a rebuild whose driver calls all
   succeed. -/
def witnessConfig : VeSwapchainConfig :=
  { width := 640, height := 480, vsync := false, triple_buffering := false,
    preferred_format := { format := 0, colorSpace := 0 } }

def witnessSupport : SwapchainSupport :=
  { capabilities := { minImageCount := 2, maxImageCount := 0,
                      currentExtent := { width := 640, height := 480 },
                      minImageExtent := { width := 1, height := 1 },
                      maxImageExtent := { width := 4096, height := 4096 } },
    formats := [{ format := 50, colorSpace := 0 }],
    present_modes := [VK_PRESENT_MODE_FIFO_KHR] }

def witnessOracle : CreateOracle :=
  { createResult := VK_SUCCESS, imageCount := 3, viewAllocOk := true,
    viewRes := fun _ => VK_SUCCESS }

/--
C1 witness: applying the amended theorem to a successful rebuild from a
stale chain yields the rebuild disjunct.
-/
theorem c1_flag_amended_witness :
    (∃ config support o,
      SwapOp.recreate witnessConfig witnessSupport witnessOracle =
        SwapOp.recreate config support o ∧
      (swapStep staleSwapModule emptyDevice
        (SwapOp.recreate witnessConfig witnessSupport witnessOracle)).2.2 = VK_SUCCESS) ∨
    (∃ r, SwapOp.recreate witnessConfig witnessSupport witnessOracle = SwapOp.present r ∧
      r ≠ VK_ERROR_OUT_OF_DATE_KHR ∧ r ≠ VK_SUBOPTIMAL_KHR) :=
  c1_flag_amended staleSwapModule emptyDevice
    (SwapOp.recreate witnessConfig witnessSupport witnessOracle) (by decide) (by decide)

theorem destroyAll_created (l : List Nat) : ∀ d : Device, (destroyAll d l).created = d.created := by
  induction l with
  | nil => intro d; rfl
  | cons a t ih =>
    intro d
    have h1 : destroyAll d (a :: t) = destroyAll (Device.destroy d a) t := rfl
    rw [h1, ih]
    rfl

theorem destroyAll_destroyed (l : List Nat) :
    ∀ d : Device, (destroyAll d l).destroyed = d.destroyed ++ l := by
  induction l with
  | nil => intro d; simp [destroyAll]
  | cons a t ih =>
    intro d
    have h1 : destroyAll d (a :: t) = destroyAll (Device.destroy d a) t := rfl
    rw [h1, ih]
    show (d.destroyed ++ [a]) ++ t = d.destroyed ++ a :: t
    simp

/--
When the creation loop hits its first failing index i (everything before i
succeeded, i fails), it reports the failing result, and every id it created
is appended to the destroyed log together with the accumulated ids.
-/
theorem swapchainObjectLoop_fail (res : Nat → Int) (i : Nat) (hres : res i ≠ VK_SUCCESS)
    (pre : List Nat) :
    ∀ (post : List Nat) (d : Device) (acc : List Nat),
      (∀ j ∈ pre, res j = VK_SUCCESS) →
      ∃ newIds,
        (swapchainObjectLoop res (pre ++ i :: post) d acc).1.created = d.created ++ newIds ∧
        (swapchainObjectLoop res (pre ++ i :: post) d acc).1.destroyed =
          d.destroyed ++ acc.reverse ++ newIds ∧
        (swapchainObjectLoop res (pre ++ i :: post) d acc).2 = Except.error (res i) := by
  induction pre with
  | nil =>
    intro post d acc _
    have hstep : swapchainObjectLoop res ([] ++ i :: post) d acc =
        (destroyAll d acc.reverse, Except.error (res i)) := by
      simp [swapchainObjectLoop, hres]
    refine ⟨[], ?_, ?_, ?_⟩
    · rw [hstep]
      simp [destroyAll_created]
    · rw [hstep]
      simp [destroyAll_destroyed]
    · rw [hstep]
  | cons j pre ih =>
    intro post d acc hpre
    have hj : res j = VK_SUCCESS := hpre j (by simp)
    have hstep : swapchainObjectLoop res ((j :: pre) ++ i :: post) d acc =
        swapchainObjectLoop res (pre ++ i :: post) (Device.create d).2
          ((Device.create d).1 :: acc) := by
      simp [swapchainObjectLoop, hj]
    obtain ⟨L, hc, hd, he⟩ := ih post (Device.create d).2 ((Device.create d).1 :: acc)
      (fun j2 hj2 => hpre j2 (by simp [hj2]))
    refine ⟨d.nextId :: L, ?_, ?_, ?_⟩ <;> rw [hstep]
    · rw [hc]
      show (d.created ++ [d.nextId]) ++ L = d.created ++ d.nextId :: L
      simp
    · rw [hd]
      show (d.destroyed ++ ((Device.create d).1 :: acc).reverse) ++ L =
        (d.destroyed ++ acc.reverse) ++ d.nextId :: L
      simp [Device.create]
    · exact he

theorem freeOwnedFramebuffers_spec (m : SwapModule) (d : Device) :
    (freeOwnedFramebuffers m d).created = d.created ∧
    ∃ olds, (freeOwnedFramebuffers m d).destroyed = d.destroyed ++ olds := by
  unfold freeOwnedFramebuffers
  rcases m.g_swapchain.framebuffers with _ | fbs
  · refine ⟨rfl, [], ?_⟩
    simp
  · by_cases ho : m.g_owns_framebuffers = true
    · constructor
      · simp [ho, destroyAll_created]
      · exact ⟨fbs, by simp [ho, destroyAll_destroyed]⟩
    · constructor
      · simp [ho]
      · exact ⟨[], by simp [ho]⟩

theorem create_image_views_fail_spec (m : SwapModule) (d : Device) (viewRes : Nat → Int)
    (i : Nat) (pre post : List Nat)
    (hsplit : List.range m.g_swapchain.image_count = pre ++ i :: post)
    (hpre : ∀ j ∈ pre, viewRes j = VK_SUCCESS) (hres : viewRes i ≠ VK_SUCCESS) :
    (ve_swapchain_create_image_views m d true viewRes).2.2 = viewRes i ∧
    (ve_swapchain_create_image_views m d true viewRes).1.g_swapchain.image_views = none ∧
    ∀ id ∈ (ve_swapchain_create_image_views m d true viewRes).2.1.created.drop
        d.created.length,
      id ∈ (ve_swapchain_create_image_views m d true viewRes).2.1.destroyed := by
  obtain ⟨L, hc, hd, he⟩ := swapchainObjectLoop_fail viewRes i hres pre post d [] hpre
  rw [← hsplit] at hc hd he
  rcases hlp : swapchainObjectLoop viewRes (List.range m.g_swapchain.image_count) d []
    with ⟨d1, out⟩
  rw [hlp] at hc hd he
  simp only at hc hd he
  subst he
  have hgoal : ve_swapchain_create_image_views m d true viewRes =
      ({ m with g_swapchain.image_views := none }, d1, viewRes i) := by
    unfold ve_swapchain_create_image_views
    rw [hlp]
    simp
  rw [hgoal]
  refine ⟨rfl, rfl, ?_⟩
  intro id hid
  simp only at hid
  rw [hc, List.drop_left] at hid
  rw [hd]
  simp [hid]

theorem create_framebuffers_fail_spec (m : SwapModule) (d : Device) (fbRes : Nat → Int)
    (i : Nat) (pre post : List Nat)
    (hsplit : List.range m.g_swapchain.image_count = pre ++ i :: post)
    (hpre : ∀ j ∈ pre, fbRes j = VK_SUCCESS) (hres : fbRes i ≠ VK_SUCCESS) :
    (ve_swapchain_create_framebuffers m d true fbRes).2.2 = fbRes i ∧
    (ve_swapchain_create_framebuffers m d true fbRes).1.g_swapchain.framebuffers = none ∧
    ∀ id ∈ (ve_swapchain_create_framebuffers m d true fbRes).2.1.created.drop
        d.created.length,
      id ∈ (ve_swapchain_create_framebuffers m d true fbRes).2.1.destroyed := by
  obtain ⟨hfc, olds, hfd⟩ := freeOwnedFramebuffers_spec m d
  obtain ⟨L, hc, hd, he⟩ :=
    swapchainObjectLoop_fail fbRes i hres pre post (freeOwnedFramebuffers m d) [] hpre
  rw [← hsplit] at hc hd he
  rcases hlp : swapchainObjectLoop fbRes (List.range m.g_swapchain.image_count)
      (freeOwnedFramebuffers m d) [] with ⟨d1, out⟩
  rw [hlp] at hc hd he
  simp only at hc hd he
  subst he
  have hgoal : ve_swapchain_create_framebuffers m d true fbRes =
      ({ m with g_owns_framebuffers := true, g_swapchain.framebuffers := none },
        d1, fbRes i) := by
    simp only [ve_swapchain_create_framebuffers]
    rw [hlp]
    simp
  rw [hgoal]
  refine ⟨rfl, rfl, ?_⟩
  intro id hid
  simp only at hid
  rw [hc, hfc, List.drop_left] at hid
  rw [hd]
  simp [hid]

/--
C7: view and framebuffer creation is all-or-nothing. If the per-image loop
of ve_swapchain_create_image_views or ve_swapchain_create_framebuffers fails
at its first failing image index i, the failing VkResult is returned, the
corresponding array is freed and nulled, and every driver object created by
that same call appears in the destroyed log — zero objects from the call
survive.
-/
theorem c7_all_or_nothing (m : SwapModule) (d : Device) (viewRes fbRes : Nat → Int)
    (i1 : Nat) (pre1 post1 : List Nat) (i2 : Nat) (pre2 post2 : List Nat) :
    (List.range m.g_swapchain.image_count = pre1 ++ i1 :: post1 →
      (∀ j ∈ pre1, viewRes j = VK_SUCCESS) → viewRes i1 ≠ VK_SUCCESS →
      (ve_swapchain_create_image_views m d true viewRes).2.2 = viewRes i1 ∧
      (ve_swapchain_create_image_views m d true viewRes).1.g_swapchain.image_views = none ∧
      ∀ id ∈ (ve_swapchain_create_image_views m d true viewRes).2.1.created.drop
          d.created.length,
        id ∈ (ve_swapchain_create_image_views m d true viewRes).2.1.destroyed) ∧
    (List.range m.g_swapchain.image_count = pre2 ++ i2 :: post2 →
      (∀ j ∈ pre2, fbRes j = VK_SUCCESS) → fbRes i2 ≠ VK_SUCCESS →
      (ve_swapchain_create_framebuffers m d true fbRes).2.2 = fbRes i2 ∧
      (ve_swapchain_create_framebuffers m d true fbRes).1.g_swapchain.framebuffers = none ∧
      ∀ id ∈ (ve_swapchain_create_framebuffers m d true fbRes).2.1.created.drop
          d.created.length,
        id ∈ (ve_swapchain_create_framebuffers m d true fbRes).2.1.destroyed) :=
  ⟨fun hsplit hpre hres => create_image_views_fail_spec m d viewRes i1 pre1 post1 hsplit hpre hres,
   fun hsplit hpre hres => create_framebuffers_fail_spec m d fbRes i2 pre2 post2 hsplit hpre hres⟩

/- Concrete inputs for the C7 witness: four images, creation fails at image
   index 2 of 4. -/
def failAtTwo : Nat → Int := fun j => if j = 2 then VK_ERROR_DEVICE_LOST else VK_SUCCESS

def fourImageModule : SwapModule :=
  { g_swapchain := { hasSwapchain := true, images := some [0, 1, 2, 3], image_views := none,
                     framebuffers := none, format := VK_FORMAT_B8G8R8A8_SRGB,
                     extent := { width := 640, height := 480 }, image_count := 4,
                     current_image_index := 0, out_of_date := false },
    g_owns_framebuffers := false }

/--
C7 witness: with four images and view creation failing at index 2, the call
reports the failure, nulls the view array, and the views created for images
0 and 1 are both in the destroyed log.
-/
theorem c7_all_or_nothing_witness :
    (ve_swapchain_create_image_views fourImageModule emptyDevice true failAtTwo).2.2 =
      VK_ERROR_DEVICE_LOST ∧
    (ve_swapchain_create_image_views fourImageModule emptyDevice true failAtTwo).1.g_swapchain.image_views = none ∧
    0 ∈ (ve_swapchain_create_image_views fourImageModule emptyDevice true failAtTwo).2.1.destroyed ∧
    1 ∈ (ve_swapchain_create_image_views fourImageModule emptyDevice true failAtTwo).2.1.destroyed := by
  have h := (c7_all_or_nothing fourImageModule emptyDevice failAtTwo failAtTwo
      2 [0, 1] [3] 2 [0, 1] [3]).1 (by decide) (by decide) (by decide)
  exact ⟨h.1, h.2.1, h.2.2 0 (by decide), h.2.2 1 (by decide)⟩

/-- ve_frame_sync (sync.h lines 19-28); none models VK_NULL_HANDLE. -/
structure VeFrameSync where
  render_fence : Option Nat
  compute_fence : Option Nat
  transfer_fence : Option Nat
  image_available : Option Nat
  render_finished : Option Nat
  compute_finished : Option Nat
  transfer_finished : Option Nat
deriving DecidableEq

def zeroFrameSync : VeFrameSync :=
  { render_fence := none, compute_fence := none, transfer_fence := none,
    image_available := none, render_finished := none, compute_finished := none,
    transfer_finished := none }

/-- ve_sync_state (sync.h lines 33-37): three frame slots plus the counter. -/
structure VeSyncState where
  frames : List VeFrameSync
  current_frame : Nat
  timeline_semaphores : Bool
deriving DecidableEq

/-- The memset-zero ve_sync_state (the fixed array has 3 zeroed slots). -/
def zeroSyncState : VeSyncState :=
  { frames := [zeroFrameSync, zeroFrameSync, zeroFrameSync], current_frame := 0,
    timeline_semaphores := false }

/--
Driver log for sync primitives. Fences are logged with the signaled flag of
their creation (VK_FENCE_CREATE_SIGNALED_BIT); destroys append the handle to
the matching destroyed list.
-/
structure SyncDevice where
  nextId : Nat
  createdFences : List (Nat × Bool)
  destroyedFences : List Nat
  createdSems : List Nat
  destroyedSems : List Nat
deriving DecidableEq

def emptySyncDevice : SyncDevice :=
  { nextId := 0, createdFences := [], destroyedFences := [], createdSems := [],
    destroyedSems := [] }

/-- vkCreateFence with the given flags; res is its VkResult. -/
def vkCreateFence (d : SyncDevice) (signaled : Bool) (res : Int) : Option Nat × SyncDevice :=
  if res = VK_SUCCESS then
    (some d.nextId, { d with nextId := d.nextId + 1,
                             createdFences := d.createdFences ++ [(d.nextId, signaled)] })
  else (none, d)

/--
ve_sync_create_semaphore (sync.c lines 216-232): returns the handle on
success and VK_NULL_HANDLE (none) on failure, dropping the VkResult.
-/
def ve_sync_create_semaphore (d : SyncDevice) (ok : Bool) : Option Nat × SyncDevice :=
  if ok then
    (some d.nextId, { d with nextId := d.nextId + 1, createdSems := d.createdSems ++ [d.nextId] })
  else (none, d)

def destroyFenceOpt (d : SyncDevice) : Option Nat → SyncDevice
  | none => d
  | some id => { d with destroyedFences := d.destroyedFences ++ [id] }

/-- ve_sync_destroy_semaphore (sync.c lines 242-248): skips null handles. -/
def destroySemOpt (d : SyncDevice) : Option Nat → SyncDevice
  | none => d
  | some id => { d with destroyedSems := d.destroyedSems ++ [id] }

/-- The per-slot body of the ve_sync_shutdown loop (sync.c lines 94-114). -/
def shutdownFrame (d : SyncDevice) (fr : VeFrameSync) : SyncDevice :=
  destroySemOpt (destroySemOpt (destroySemOpt (destroySemOpt
    (destroyFenceOpt (destroyFenceOpt (destroyFenceOpt d
      fr.render_fence) fr.compute_fence) fr.transfer_fence)
    fr.image_available) fr.render_finished) fr.compute_finished) fr.transfer_finished

/--
ve_sync_shutdown (sync.c lines 83-117): destroys every non-null fence and
semaphore of every slot and memsets the state back to zero.
-/
def ve_sync_shutdown (s : VeSyncState) (d : SyncDevice) : VeSyncState × SyncDevice :=
  (zeroSyncState, s.frames.foldl shutdownFrame d)

/-- Write one field of frames[i] (the C code assigns into the array slot). -/
def updFrame (s : VeSyncState) (i : Nat) (f : VeFrameSync → VeFrameSync) : VeSyncState :=
  { s with frames := s.frames.set i (f (s.frames.getD i zeroFrameSync)) }

/--
One iteration of the ve_sync_init loop (sync.c lines 30-77) for slot i:
three fences created in the signaled state (any failure shuts everything
down and returns that failure), then four semaphores (any null handle shuts
everything down and returns VK_ERROR_OUT_OF_DEVICE_MEMORY). fres j / sok j
are the driver outcomes of the j-th fence / semaphore creation of this slot.
-/
def ve_sync_init_slot (fres : Nat → Int) (sok : Nat → Bool) (i : Nat) (s : VeSyncState)
    (d : SyncDevice) : Except (VeSyncState × SyncDevice × Int) (VeSyncState × SyncDevice) :=
  let c1 := vkCreateFence d true (fres 0)
  let s1 := updFrame s i (fun fr => { fr with render_fence := c1.1 })
  if fres 0 ≠ VK_SUCCESS then
    Except.error ((ve_sync_shutdown s1 c1.2).1, (ve_sync_shutdown s1 c1.2).2, fres 0)
  else
    let c2 := vkCreateFence c1.2 true (fres 1)
    let s2 := updFrame s1 i (fun fr => { fr with compute_fence := c2.1 })
    if fres 1 ≠ VK_SUCCESS then
      Except.error ((ve_sync_shutdown s2 c2.2).1, (ve_sync_shutdown s2 c2.2).2, fres 1)
    else
      let c3 := vkCreateFence c2.2 true (fres 2)
      let s3 := updFrame s2 i (fun fr => { fr with transfer_fence := c3.1 })
      if fres 2 ≠ VK_SUCCESS then
        Except.error ((ve_sync_shutdown s3 c3.2).1, (ve_sync_shutdown s3 c3.2).2, fres 2)
      else
        let m1 := ve_sync_create_semaphore c3.2 (sok 0)
        let m2 := ve_sync_create_semaphore m1.2 (sok 1)
        let m3 := ve_sync_create_semaphore m2.2 (sok 2)
        let m4 := ve_sync_create_semaphore m3.2 (sok 3)
        let s4 := updFrame s3 i (fun fr => { fr with image_available := m1.1 })
        let s5 := updFrame s4 i (fun fr => { fr with render_finished := m2.1 })
        let s6 := updFrame s5 i (fun fr => { fr with compute_finished := m3.1 })
        let s7 := updFrame s6 i (fun fr => { fr with transfer_finished := m4.1 })
        if m1.1 = none ∨ m2.1 = none ∨ m3.1 = none ∨ m4.1 = none then
          Except.error ((ve_sync_shutdown s7 m4.2).1, (ve_sync_shutdown s7 m4.2).2,
            VK_ERROR_OUT_OF_DEVICE_MEMORY)
        else
          Except.ok (s7, m4.2)

def ve_sync_init_loop (fres : Nat → Nat → Int) (sok : Nat → Nat → Bool) :
    List Nat → VeSyncState → SyncDevice → VeSyncState × SyncDevice × Int
  | [], s, d => (s, d, VK_SUCCESS)
  | i :: rest, s, d =>
    match ve_sync_init_slot (fres i) (sok i) i s d with
    | Except.error out => out
    | Except.ok sd => ve_sync_init_loop fres sok rest sd.1 sd.2

/--
ve_sync_init (sync.c lines 19-81): memset the state, set current_frame to 0,
record timeline support (tl), then create the primitives of the three slots
in order. fres i j / sok i j are the driver outcomes for the j-th fence or
semaphore creation of slot i.
-/
def ve_sync_init (tl : Bool) (fres : Nat → Nat → Int) (sok : Nat → Nat → Bool)
    (d : SyncDevice) : VeSyncState × SyncDevice × Int :=
  ve_sync_init_loop fres sok [0, 1, 2] { zeroSyncState with timeline_semaphores := tl } d

/-- ve_sync_advance_frame (sync.c lines 154-156). -/
def ve_sync_advance_frame (s : VeSyncState) : VeSyncState :=
  { s with current_frame := (s.current_frame + 1) % VE_MAX_FRAMES_IN_FLIGHT }

/-- ve_sync_get_frame (sync.c lines 123-128): NULL for indices past the array. -/
def ve_sync_get_frame (s : VeSyncState) (frame_index : Nat) : Option VeFrameSync :=
  if frame_index ≥ VE_MAX_FRAMES_IN_FLIGHT then none
  else some (s.frames.getD frame_index zeroFrameSync)

def ve_sync_advance_frame_iter (s : VeSyncState) : Nat → VeSyncState
  | 0 => s
  | n + 1 => ve_sync_advance_frame (ve_sync_advance_frame_iter s n)

/-- The field of ve_vulkan_context read by the frame counter (vulkan_core.h line 189). -/
structure VeVulkanContext where
  current_frame : Nat
deriving DecidableEq

/-- ve_vulkan_advance_frame (vulkan_core.c lines 845-847). -/
def ve_vulkan_advance_frame (c : VeVulkanContext) : VeVulkanContext :=
  { c with current_frame := (c.current_frame + 1) % VE_MAX_FRAMES_IN_FLIGHT }

def ve_vulkan_advance_frame_iter (c : VeVulkanContext) : Nat → VeVulkanContext
  | 0 => c
  | n + 1 => ve_vulkan_advance_frame (ve_vulkan_advance_frame_iter c n)

/-- The counter operations of the sync registry: (re)initialization and advance. -/
inductive SyncOp where
  | init (tl : Bool) (fres : Nat → Nat → Int) (sok : Nat → Nat → Bool)
  | advance

def syncOpStep (sd : VeSyncState × SyncDevice) : SyncOp → VeSyncState × SyncDevice
  | SyncOp.init tl fres sok =>
    ((ve_sync_init tl fres sok sd.2).1, (ve_sync_init tl fres sok sd.2).2.1)
  | SyncOp.advance => (ve_sync_advance_frame sd.1, sd.2)

theorem slot_current_frame (fres1 : Nat → Int) (sok1 : Nat → Bool) (i : Nat)
    (s : VeSyncState) (d : SyncDevice) :
    (∀ out, ve_sync_init_slot fres1 sok1 i s d = Except.error out →
      out.1 = zeroSyncState) ∧
    (∀ sd, ve_sync_init_slot fres1 sok1 i s d = Except.ok sd →
      sd.1.current_frame = s.current_frame) := by
  constructor
  · intro out hout
    unfold ve_sync_init_slot at hout
    simp only [] at hout
    split at hout
    · cases hout
      rfl
    · split at hout
      · cases hout
        rfl
      · split at hout
        · cases hout
          rfl
        · split at hout
          · cases hout
            rfl
          · cases hout
  · intro sd hsd
    unfold ve_sync_init_slot at hsd
    simp only [] at hsd
    split at hsd
    · cases hsd
    · split at hsd
      · cases hsd
      · split at hsd
        · cases hsd
        · split at hsd
          · cases hsd
          · cases hsd
            rfl

theorem loop_current_frame (fres : Nat → Nat → Int) (sok : Nat → Nat → Bool) :
    ∀ (l : List Nat) (s : VeSyncState) (d : SyncDevice),
      (ve_sync_init_loop fres sok l s d).1.current_frame = s.current_frame ∨
      (ve_sync_init_loop fres sok l s d).1 = zeroSyncState := by
  intro l
  induction l with
  | nil =>
    intro s d
    left
    rfl
  | cons i rest ih =>
    intro s d
    unfold ve_sync_init_loop
    rcases hslot : ve_sync_init_slot (fres i) (sok i) i s d with out | sd
    · right
      simp only
      exact (slot_current_frame (fres i) (sok i) i s d).1 out hslot
    · simp only
      rcases ih sd.1 sd.2 with h | h
      · left
        rw [h, (slot_current_frame (fres i) (sok i) i s d).2 sd hslot]
      · right
        exact h

theorem ve_sync_init_current_frame (tl : Bool) (fres : Nat → Nat → Int)
    (sok : Nat → Nat → Bool) (d : SyncDevice) :
    (ve_sync_init tl fres sok d).1.current_frame = 0 := by
  unfold ve_sync_init
  rcases loop_current_frame fres sok [0, 1, 2]
      { zeroSyncState with timeline_semaphores := tl } d with h | h
  · rw [h]
    rfl
  · rw [h]
    rfl

/--
C10: the current-frame index stays in bounds. Initialization (every outcome
of ve_sync_init) sets current_frame to 0; ve_sync_advance_frame maps it to
(current + 1) mod VE_MAX_FRAMES_IN_FLIGHT; hence any sequence of init and
advance operations keeps the index strictly below VE_MAX_FRAMES_IN_FLIGHT
(= 3); and ve_sync_get_frame returns none for every index that is not below
VE_MAX_FRAMES_IN_FLIGHT.
-/
theorem c10_current_frame_bounds :
    (∀ (tl : Bool) (fres : Nat → Nat → Int) (sok : Nat → Nat → Bool) (d : SyncDevice),
      (ve_sync_init tl fres sok d).1.current_frame = 0) ∧
    (∀ s : VeSyncState,
      (ve_sync_advance_frame s).current_frame =
        (s.current_frame + 1) % VE_MAX_FRAMES_IN_FLIGHT) ∧
    (∀ (s : VeSyncState) (d : SyncDevice) (ops : List SyncOp),
      s.current_frame < VE_MAX_FRAMES_IN_FLIGHT →
      (ops.foldl syncOpStep (s, d)).1.current_frame < VE_MAX_FRAMES_IN_FLIGHT) ∧
    (∀ (s : VeSyncState) (i : Nat), VE_MAX_FRAMES_IN_FLIGHT ≤ i →
      ve_sync_get_frame s i = none) := by
  refine ⟨ve_sync_init_current_frame, fun s => rfl, ?_, ?_⟩
  · intro s d ops
    induction ops generalizing s d with
    | nil => intro h; exact h
    | cons op rest ih =>
      intro h
      have hstep : (syncOpStep (s, d) op).1.current_frame < VE_MAX_FRAMES_IN_FLIGHT := by
        cases op with
        | init tl fres sok =>
          rw [show (syncOpStep (s, d) (SyncOp.init tl fres sok)).1.current_frame =
            (ve_sync_init tl fres sok d).1.current_frame from rfl]
          rw [ve_sync_init_current_frame]
          norm_num [VE_MAX_FRAMES_IN_FLIGHT]
        | advance =>
          rw [show (syncOpStep (s, d) SyncOp.advance).1.current_frame =
            (s.current_frame + 1) % VE_MAX_FRAMES_IN_FLIGHT from rfl]
          exact Nat.mod_lt _ (by norm_num [VE_MAX_FRAMES_IN_FLIGHT])
      have := ih (syncOpStep (s, d) op).1 (syncOpStep (s, d) op).2 hstep
      simpa using this
  · intro s i hi
    simp [ve_sync_get_frame, hi]

/--
C10 witness: a concrete run — init (all creations succeed), then four
advances — ends with the index in bounds, and the getter rejects index 3.
-/
theorem c10_current_frame_bounds_witness :
    (([SyncOp.init false (fun _ _ => VK_SUCCESS) (fun _ _ => true), SyncOp.advance,
        SyncOp.advance, SyncOp.advance, SyncOp.advance].foldl syncOpStep
      (zeroSyncState, emptySyncDevice)).1.current_frame < VE_MAX_FRAMES_IN_FLIGHT) ∧
    ve_sync_get_frame zeroSyncState 3 = none :=
  ⟨c10_current_frame_bounds.2.2.1 zeroSyncState emptySyncDevice
    [SyncOp.init false (fun _ _ => VK_SUCCESS) (fun _ _ => true), SyncOp.advance,
      SyncOp.advance, SyncOp.advance, SyncOp.advance] (by decide),
   c10_current_frame_bounds.2.2.2 zeroSyncState 3 (by decide)⟩

/--
C3 counterexample: the frame counter is not a monotonically increasing
integer. Starting from index 0, three advances return the index to 0, not
to 0 + 3 — ve_sync_advance_frame is a mod-3 ring counter, and the stored
index is rewound on wrap-around.
-/
theorem c3_frame_counter_counterexample :
    ¬ (∀ (s : VeSyncState) (n : Nat),
        (ve_sync_advance_frame_iter s n).current_frame = s.current_frame + n) := by
  intro h
  have hc := h zeroSyncState 3
  exact absurd hc (by decide)

/--
C3 amended: both frame counters are ring counters, not monotone integers:
starting from an index below VE_MAX_FRAMES_IN_FLIGHT (= 3), after n advance
operations the index of ve_sync_advance_frame equals (initial + n) mod 3,
and the index of ve_vulkan_advance_frame likewise — each advance moves by
exactly one step (never skipped), but the stored index wraps instead of
growing without bound.
-/
theorem c3_frame_counter_amended (s : VeSyncState) (c : VeVulkanContext) (n : Nat) :
    (s.current_frame < VE_MAX_FRAMES_IN_FLIGHT →
      (ve_sync_advance_frame_iter s n).current_frame =
        (s.current_frame + n) % VE_MAX_FRAMES_IN_FLIGHT) ∧
    (c.current_frame < VE_MAX_FRAMES_IN_FLIGHT →
      (ve_vulkan_advance_frame_iter c n).current_frame =
        (c.current_frame + n) % VE_MAX_FRAMES_IN_FLIGHT) := by
  constructor
  · intro hs
    induction n with
    | zero =>
      simp only [ve_sync_advance_frame_iter, Nat.add_zero]
      simp only [VE_MAX_FRAMES_IN_FLIGHT] at hs ⊢
      omega
    | succ k ih =>
      rw [show ve_sync_advance_frame_iter s (k + 1) =
        ve_sync_advance_frame (ve_sync_advance_frame_iter s k) from rfl]
      rw [show (ve_sync_advance_frame (ve_sync_advance_frame_iter s k)).current_frame =
        ((ve_sync_advance_frame_iter s k).current_frame + 1) % VE_MAX_FRAMES_IN_FLIGHT
        from rfl]
      rw [ih]
      simp only [VE_MAX_FRAMES_IN_FLIGHT]
      omega
  · intro hc
    induction n with
    | zero =>
      simp only [ve_vulkan_advance_frame_iter, Nat.add_zero]
      simp only [VE_MAX_FRAMES_IN_FLIGHT] at hc ⊢
      omega
    | succ k ih =>
      rw [show ve_vulkan_advance_frame_iter c (k + 1) =
        ve_vulkan_advance_frame (ve_vulkan_advance_frame_iter c k) from rfl]
      rw [show (ve_vulkan_advance_frame (ve_vulkan_advance_frame_iter c k)).current_frame =
        ((ve_vulkan_advance_frame_iter c k).current_frame + 1) % VE_MAX_FRAMES_IN_FLIGHT
        from rfl]
      rw [ih]
      simp only [VE_MAX_FRAMES_IN_FLIGHT]
      omega

/--
C3 witness: from index 0, five advances land on (0 + 5) mod 3 = 2 for both
counters.
-/
theorem c3_frame_counter_amended_witness :
    (ve_sync_advance_frame_iter zeroSyncState 5).current_frame =
      (0 + 5) % VE_MAX_FRAMES_IN_FLIGHT ∧
    (ve_vulkan_advance_frame_iter { current_frame := 0 } 5).current_frame =
      (0 + 5) % VE_MAX_FRAMES_IN_FLIGHT :=
  ⟨(c3_frame_counter_amended zeroSyncState { current_frame := 0 } 5).1 (by decide),
   (c3_frame_counter_amended zeroSyncState { current_frame := 0 } 5).2 (by decide)⟩

/-- ve_command_buffer (command_buffer.h): the recording state machine fields. -/
structure VeCommandBuffer where
  buffer : Nat
  is_recording : Bool
  is_submitting : Bool
deriving DecidableEq

/--
ve_command_buffer_begin (command_buffer.h lines 586-600). The function opens
with the always-on VE_ASSERT(cmd and not cmd->is_recording) (assert.h): an
assertion failure aborts instead of returning, modelled as none. Otherwise
beginRes is the VkResult of vkBeginCommandBuffer; on success the buffer
transitions to recording, on failure it is returned unchanged with the
error.
-/
def ve_command_buffer_begin (cmd : VeCommandBuffer) (beginRes : Int) :
    Option (VeCommandBuffer × Int) :=
  if cmd.is_recording then none
  else if beginRes = VK_SUCCESS then some ({ cmd with is_recording := true }, beginRes)
  else some (cmd, beginRes)

/--
ve_command_buffer_begin_frame (command_buffer.h lines 871-889). The input is
the buffer returned by ve_command_buffer_get_current (none when NULL).
An already-recording buffer is tolerated: the function logs a warning and
returns the existing handle without re-beginning. Result is (stored buffer
state, returned handle); a NULL return is none.
-/
def ve_command_buffer_begin_frame (cmd? : Option VeCommandBuffer) (beginRes : Int) :
    Option VeCommandBuffer × Option VeCommandBuffer :=
  match cmd? with
  | none => (none, none)
  | some cmd =>
    if cmd.is_recording then (some cmd, some cmd)
    else
      match ve_command_buffer_begin cmd beginRes with
      | none => (some cmd, none)
      | some cmdRes =>
        if cmdRes.2 ≠ VK_SUCCESS then (some cmdRes.1, none)
        else (some cmdRes.1, some cmdRes.1)

def recordingBuffer : VeCommandBuffer :=
  { buffer := 7, is_recording := true, is_submitting := false }

/--
C9 counterexample: not every begin entry point fails on an already-recording
buffer. ve_command_buffer_begin_frame on a recording buffer returns the
existing handle — indistinguishable from success for its caller — instead
of failing (returning NULL) or asserting.
-/
theorem c9_begin_counterexample :
    ¬ (∀ (cmd : VeCommandBuffer) (beginRes : Int), cmd.is_recording = true →
        (ve_command_buffer_begin_frame (some cmd) beginRes).2 = none) := by
  intro h
  exact absurd (h recordingBuffer VK_SUCCESS rfl) (by decide)

/--
C9 amended: ve_command_buffer_begin requires the buffer not to be recording
— called on a recording buffer it hits the always-on assertion and aborts
(no transition, no success), and on a successful begin the buffer
transitions to the recording state (on a failed vkBeginCommandBuffer it is
unchanged and the error is returned); ve_command_buffer_begin_frame,
however, tolerates an already-recording buffer: it logs a warning and
returns the existing handle with the state unchanged instead of failing.
-/
theorem c9_begin_amended (cmd : VeCommandBuffer) (beginRes : Int) :
    (cmd.is_recording = true → ve_command_buffer_begin cmd beginRes = none) ∧
    (cmd.is_recording = false → beginRes = VK_SUCCESS →
      ve_command_buffer_begin cmd beginRes =
        some ({ cmd with is_recording := true }, VK_SUCCESS)) ∧
    (cmd.is_recording = false → beginRes ≠ VK_SUCCESS →
      ve_command_buffer_begin cmd beginRes = some (cmd, beginRes)) ∧
    (cmd.is_recording = true →
      ve_command_buffer_begin_frame (some cmd) beginRes = (some cmd, some cmd)) := by
  refine ⟨?_, ?_, ?_, ?_⟩
  · intro h
    simp [ve_command_buffer_begin, h]
  · intro h hr
    simp [ve_command_buffer_begin, h, hr]
  · intro h hr
    simp [ve_command_buffer_begin, h, hr]
  · intro h
    simp [ve_command_buffer_begin_frame, h]

/--
C9 witness: on a concrete recording buffer, ve_command_buffer_begin aborts
with the assertion (none) while ve_command_buffer_begin_frame returns the
buffer unchanged.
-/
theorem c9_begin_amended_witness :
    ve_command_buffer_begin recordingBuffer VK_SUCCESS = none ∧
    ve_command_buffer_begin_frame (some recordingBuffer) VK_SUCCESS =
      (some recordingBuffer, some recordingBuffer) :=
  ⟨(c9_begin_amended recordingBuffer VK_SUCCESS).1 rfl,
   (c9_begin_amended recordingBuffer VK_SUCCESS).2.2.2 rfl⟩

set_option maxHeartbeats 4000000 in
/--
C6: sync registry initialization creates exactly three frame slots, each
with its fences created in the signaled state and four semaphores (lane
count + 1); and if any primitive creation fails, everything created so far
is torn down, the state is memset back to zero, and an error is returned
(the failing fence result, or VK_ERROR_OUT_OF_DEVICE_MEMORY for a failed
semaphore) — no partial state survives a failed initialization.
-/
theorem c6_sync_init_spec (tl : Bool) (fres : Nat → Nat → Int) (sok : Nat → Nat → Bool)
    (s : VeSyncState) (dev : SyncDevice) (r : Int)
    (hrun : ve_sync_init tl fres sok emptySyncDevice = (s, dev, r)) :
    ((∀ i j, i < 3 → j < 3 → fres i j = VK_SUCCESS) →
     (∀ i j, i < 3 → j < 4 → sok i j = true) →
      r = VK_SUCCESS ∧ s.frames.length = 3 ∧
      ∀ fr ∈ s.frames,
        (fr.render_fence.isSome = true ∧ (fr.render_fence.getD 0, true) ∈ dev.createdFences) ∧
        (fr.compute_fence.isSome = true ∧ (fr.compute_fence.getD 0, true) ∈ dev.createdFences) ∧
        (fr.transfer_fence.isSome = true ∧
          (fr.transfer_fence.getD 0, true) ∈ dev.createdFences) ∧
        fr.image_available.isSome = true ∧ fr.render_finished.isSome = true ∧
        fr.compute_finished.isSome = true ∧ fr.transfer_finished.isSome = true) ∧
    (r ≠ VK_SUCCESS →
      s = zeroSyncState ∧
      (∀ p ∈ dev.createdFences, p.1 ∈ dev.destroyedFences) ∧
      (∀ a ∈ dev.createdSems, a ∈ dev.destroyedSems) ∧
      ((∃ i j, i < 3 ∧ j < 3 ∧ r = fres i j) ∨ r = VK_ERROR_OUT_OF_DEVICE_MEMORY)) := by
  constructor
  · intro hf hs
    have f00 := hf 0 0 (by norm_num) (by norm_num)
    have f01 := hf 0 1 (by norm_num) (by norm_num)
    have f02 := hf 0 2 (by norm_num) (by norm_num)
    have s00 := hs 0 0 (by norm_num) (by norm_num)
    have s01 := hs 0 1 (by norm_num) (by norm_num)
    have s02 := hs 0 2 (by norm_num) (by norm_num)
    have s03 := hs 0 3 (by norm_num) (by norm_num)
    have f10 := hf 1 0 (by norm_num) (by norm_num)
    have f11 := hf 1 1 (by norm_num) (by norm_num)
    have f12 := hf 1 2 (by norm_num) (by norm_num)
    have s10 := hs 1 0 (by norm_num) (by norm_num)
    have s11 := hs 1 1 (by norm_num) (by norm_num)
    have s12 := hs 1 2 (by norm_num) (by norm_num)
    have s13 := hs 1 3 (by norm_num) (by norm_num)
    have f20 := hf 2 0 (by norm_num) (by norm_num)
    have f21 := hf 2 1 (by norm_num) (by norm_num)
    have f22 := hf 2 2 (by norm_num) (by norm_num)
    have s20 := hs 2 0 (by norm_num) (by norm_num)
    have s21 := hs 2 1 (by norm_num) (by norm_num)
    have s22 := hs 2 2 (by norm_num) (by norm_num)
    have s23 := hs 2 3 (by norm_num) (by norm_num)
    simp [ve_sync_init, ve_sync_init_loop, ve_sync_init_slot, vkCreateFence,
        ve_sync_create_semaphore, updFrame, ve_sync_shutdown, shutdownFrame,
        destroyFenceOpt, destroySemOpt, emptySyncDevice, zeroSyncState, zeroFrameSync,
        f00, f01, f02, s00, s01, s02, s03, f10, f11, f12, s10, s11, s12, s13, f20, f21, f22, s20, s21, s22, s23] at hrun
    obtain ⟨h1, h2, h3⟩ := hrun
    refine ⟨h3.symm, ?_, ?_⟩
    · rw [← h1]
      simp
    · rw [← h1, ← h2]
      simp
  · intro hr
    by_cases f00 : fres 0 0 = VK_SUCCESS
    · by_cases f01 : fres 0 1 = VK_SUCCESS
      · by_cases f02 : fres 0 2 = VK_SUCCESS
        · by_cases s00 : sok 0 0 = true
          · by_cases s01 : sok 0 1 = true
            · by_cases s02 : sok 0 2 = true
              · by_cases s03 : sok 0 3 = true
                · by_cases f10 : fres 1 0 = VK_SUCCESS
                  · by_cases f11 : fres 1 1 = VK_SUCCESS
                    · by_cases f12 : fres 1 2 = VK_SUCCESS
                      · by_cases s10 : sok 1 0 = true
                        · by_cases s11 : sok 1 1 = true
                          · by_cases s12 : sok 1 2 = true
                            · by_cases s13 : sok 1 3 = true
                              · by_cases f20 : fres 2 0 = VK_SUCCESS
                                · by_cases f21 : fres 2 1 = VK_SUCCESS
                                  · by_cases f22 : fres 2 2 = VK_SUCCESS
                                    · by_cases s20 : sok 2 0 = true
                                      · by_cases s21 : sok 2 1 = true
                                        · by_cases s22 : sok 2 2 = true
                                          · by_cases s23 : sok 2 3 = true
                                            · simp [ve_sync_init, ve_sync_init_loop, ve_sync_init_slot, vkCreateFence,
        ve_sync_create_semaphore, updFrame, ve_sync_shutdown, shutdownFrame,
        destroyFenceOpt, destroySemOpt, emptySyncDevice, zeroSyncState, zeroFrameSync,
                                                  f00, f01, f02, s00, s01, s02, s03, f10, f11, f12, s10, s11, s12, s13, f20, f21, f22, s20, s21, s22, s23] at hrun
                                              obtain ⟨h1, h2, h3⟩ := hrun
                                              exact absurd h3.symm hr
                                            · simp [ve_sync_init, ve_sync_init_loop, ve_sync_init_slot, vkCreateFence,
        ve_sync_create_semaphore, updFrame, ve_sync_shutdown, shutdownFrame,
        destroyFenceOpt, destroySemOpt, emptySyncDevice, zeroSyncState, zeroFrameSync,
                                                  f00, f01, f02, s00, s01, s02, s03, f10, f11, f12, s10, s11, s12, s13, f20, f21, f22, s20, s21, s22, s23] at hrun
                                              obtain ⟨h1, h2, h3⟩ := hrun
                                              refine ⟨?_, ?_, ?_, Or.inr h3.symm⟩
                                              · rw [← h1]
                                                decide
                                              · rw [← h2]
                                                decide
                                              · rw [← h2]
                                                decide
                                          · by_cases s23 : sok 2 3 = true
                                            · simp [ve_sync_init, ve_sync_init_loop, ve_sync_init_slot, vkCreateFence,
        ve_sync_create_semaphore, updFrame, ve_sync_shutdown, shutdownFrame,
        destroyFenceOpt, destroySemOpt, emptySyncDevice, zeroSyncState, zeroFrameSync,
                                                  f00, f01, f02, s00, s01, s02, s03, f10, f11, f12, s10, s11, s12, s13, f20, f21, f22, s20, s21, s22, s23] at hrun
                                              obtain ⟨h1, h2, h3⟩ := hrun
                                              refine ⟨?_, ?_, ?_, Or.inr h3.symm⟩
                                              · rw [← h1]
                                                decide
                                              · rw [← h2]
                                                decide
                                              · rw [← h2]
                                                decide
                                            · simp [ve_sync_init, ve_sync_init_loop, ve_sync_init_slot, vkCreateFence,
        ve_sync_create_semaphore, updFrame, ve_sync_shutdown, shutdownFrame,
        destroyFenceOpt, destroySemOpt, emptySyncDevice, zeroSyncState, zeroFrameSync,
                                                  f00, f01, f02, s00, s01, s02, s03, f10, f11, f12, s10, s11, s12, s13, f20, f21, f22, s20, s21, s22, s23] at hrun
                                              obtain ⟨h1, h2, h3⟩ := hrun
                                              refine ⟨?_, ?_, ?_, Or.inr h3.symm⟩
                                              · rw [← h1]
                                                decide
                                              · rw [← h2]
                                                decide
                                              · rw [← h2]
                                                decide
                                        · by_cases s22 : sok 2 2 = true
                                          · by_cases s23 : sok 2 3 = true
                                            · simp [ve_sync_init, ve_sync_init_loop, ve_sync_init_slot, vkCreateFence,
        ve_sync_create_semaphore, updFrame, ve_sync_shutdown, shutdownFrame,
        destroyFenceOpt, destroySemOpt, emptySyncDevice, zeroSyncState, zeroFrameSync,
                                                  f00, f01, f02, s00, s01, s02, s03, f10, f11, f12, s10, s11, s12, s13, f20, f21, f22, s20, s21, s22, s23] at hrun
                                              obtain ⟨h1, h2, h3⟩ := hrun
                                              refine ⟨?_, ?_, ?_, Or.inr h3.symm⟩
                                              · rw [← h1]
                                                decide
                                              · rw [← h2]
                                                decide
                                              · rw [← h2]
                                                decide
                                            · simp [ve_sync_init, ve_sync_init_loop, ve_sync_init_slot, vkCreateFence,
        ve_sync_create_semaphore, updFrame, ve_sync_shutdown, shutdownFrame,
        destroyFenceOpt, destroySemOpt, emptySyncDevice, zeroSyncState, zeroFrameSync,
                                                  f00, f01, f02, s00, s01, s02, s03, f10, f11, f12, s10, s11, s12, s13, f20, f21, f22, s20, s21, s22, s23] at hrun
                                              obtain ⟨h1, h2, h3⟩ := hrun
                                              refine ⟨?_, ?_, ?_, Or.inr h3.symm⟩
                                              · rw [← h1]
                                                decide
                                              · rw [← h2]
                                                decide
                                              · rw [← h2]
                                                decide
                                          · by_cases s23 : sok 2 3 = true
                                            · simp [ve_sync_init, ve_sync_init_loop, ve_sync_init_slot, vkCreateFence,
        ve_sync_create_semaphore, updFrame, ve_sync_shutdown, shutdownFrame,
        destroyFenceOpt, destroySemOpt, emptySyncDevice, zeroSyncState, zeroFrameSync,
                                                  f00, f01, f02, s00, s01, s02, s03, f10, f11, f12, s10, s11, s12, s13, f20, f21, f22, s20, s21, s22, s23] at hrun
                                              obtain ⟨h1, h2, h3⟩ := hrun
                                              refine ⟨?_, ?_, ?_, Or.inr h3.symm⟩
                                              · rw [← h1]
                                                decide
                                              · rw [← h2]
                                                decide
                                              · rw [← h2]
                                                decide
                                            · simp [ve_sync_init, ve_sync_init_loop, ve_sync_init_slot, vkCreateFence,
        ve_sync_create_semaphore, updFrame, ve_sync_shutdown, shutdownFrame,
        destroyFenceOpt, destroySemOpt, emptySyncDevice, zeroSyncState, zeroFrameSync,
                                                  f00, f01, f02, s00, s01, s02, s03, f10, f11, f12, s10, s11, s12, s13, f20, f21, f22, s20, s21, s22, s23] at hrun
                                              obtain ⟨h1, h2, h3⟩ := hrun
                                              refine ⟨?_, ?_, ?_, Or.inr h3.symm⟩
                                              · rw [← h1]
                                                decide
                                              · rw [← h2]
                                                decide
                                              · rw [← h2]
                                                decide
                                      · by_cases s21 : sok 2 1 = true
                                        · by_cases s22 : sok 2 2 = true
                                          · by_cases s23 : sok 2 3 = true
                                            · simp [ve_sync_init, ve_sync_init_loop, ve_sync_init_slot, vkCreateFence,
        ve_sync_create_semaphore, updFrame, ve_sync_shutdown, shutdownFrame,
        destroyFenceOpt, destroySemOpt, emptySyncDevice, zeroSyncState, zeroFrameSync,
                                                  f00, f01, f02, s00, s01, s02, s03, f10, f11, f12, s10, s11, s12, s13, f20, f21, f22, s20, s21, s22, s23] at hrun
                                              obtain ⟨h1, h2, h3⟩ := hrun
                                              refine ⟨?_, ?_, ?_, Or.inr h3.symm⟩
                                              · rw [← h1]
                                                decide
                                              · rw [← h2]
                                                decide
                                              · rw [← h2]
                                                decide
                                            · simp [ve_sync_init, ve_sync_init_loop, ve_sync_init_slot, vkCreateFence,
        ve_sync_create_semaphore, updFrame, ve_sync_shutdown, shutdownFrame,
        destroyFenceOpt, destroySemOpt, emptySyncDevice, zeroSyncState, zeroFrameSync,
                                                  f00, f01, f02, s00, s01, s02, s03, f10, f11, f12, s10, s11, s12, s13, f20, f21, f22, s20, s21, s22, s23] at hrun
                                              obtain ⟨h1, h2, h3⟩ := hrun
                                              refine ⟨?_, ?_, ?_, Or.inr h3.symm⟩
                                              · rw [← h1]
                                                decide
                                              · rw [← h2]
                                                decide
                                              · rw [← h2]
                                                decide
                                          · by_cases s23 : sok 2 3 = true
                                            · simp [ve_sync_init, ve_sync_init_loop, ve_sync_init_slot, vkCreateFence,
        ve_sync_create_semaphore, updFrame, ve_sync_shutdown, shutdownFrame,
        destroyFenceOpt, destroySemOpt, emptySyncDevice, zeroSyncState, zeroFrameSync,
                                                  f00, f01, f02, s00, s01, s02, s03, f10, f11, f12, s10, s11, s12, s13, f20, f21, f22, s20, s21, s22, s23] at hrun
                                              obtain ⟨h1, h2, h3⟩ := hrun
                                              refine ⟨?_, ?_, ?_, Or.inr h3.symm⟩
                                              · rw [← h1]
                                                decide
                                              · rw [← h2]
                                                decide
                                              · rw [← h2]
                                                decide
                                            · simp [ve_sync_init, ve_sync_init_loop, ve_sync_init_slot, vkCreateFence,
        ve_sync_create_semaphore, updFrame, ve_sync_shutdown, shutdownFrame,
        destroyFenceOpt, destroySemOpt, emptySyncDevice, zeroSyncState, zeroFrameSync,
                                                  f00, f01, f02, s00, s01, s02, s03, f10, f11, f12, s10, s11, s12, s13, f20, f21, f22, s20, s21, s22, s23] at hrun
                                              obtain ⟨h1, h2, h3⟩ := hrun
                                              refine ⟨?_, ?_, ?_, Or.inr h3.symm⟩
                                              · rw [← h1]
                                                decide
                                              · rw [← h2]
                                                decide
                                              · rw [← h2]
                                                decide
                                        · by_cases s22 : sok 2 2 = true
                                          · by_cases s23 : sok 2 3 = true
                                            · simp [ve_sync_init, ve_sync_init_loop, ve_sync_init_slot, vkCreateFence,
        ve_sync_create_semaphore, updFrame, ve_sync_shutdown, shutdownFrame,
        destroyFenceOpt, destroySemOpt, emptySyncDevice, zeroSyncState, zeroFrameSync,
                                                  f00, f01, f02, s00, s01, s02, s03, f10, f11, f12, s10, s11, s12, s13, f20, f21, f22, s20, s21, s22, s23] at hrun
                                              obtain ⟨h1, h2, h3⟩ := hrun
                                              refine ⟨?_, ?_, ?_, Or.inr h3.symm⟩
                                              · rw [← h1]
                                                decide
                                              · rw [← h2]
                                                decide
                                              · rw [← h2]
                                                decide
                                            · simp [ve_sync_init, ve_sync_init_loop, ve_sync_init_slot, vkCreateFence,
        ve_sync_create_semaphore, updFrame, ve_sync_shutdown, shutdownFrame,
        destroyFenceOpt, destroySemOpt, emptySyncDevice, zeroSyncState, zeroFrameSync,
                                                  f00, f01, f02, s00, s01, s02, s03, f10, f11, f12, s10, s11, s12, s13, f20, f21, f22, s20, s21, s22, s23] at hrun
                                              obtain ⟨h1, h2, h3⟩ := hrun
                                              refine ⟨?_, ?_, ?_, Or.inr h3.symm⟩
                                              · rw [← h1]
                                                decide
                                              · rw [← h2]
                                                decide
                                              · rw [← h2]
                                                decide
                                          · by_cases s23 : sok 2 3 = true
                                            · simp [ve_sync_init, ve_sync_init_loop, ve_sync_init_slot, vkCreateFence,
        ve_sync_create_semaphore, updFrame, ve_sync_shutdown, shutdownFrame,
        destroyFenceOpt, destroySemOpt, emptySyncDevice, zeroSyncState, zeroFrameSync,
                                                  f00, f01, f02, s00, s01, s02, s03, f10, f11, f12, s10, s11, s12, s13, f20, f21, f22, s20, s21, s22, s23] at hrun
                                              obtain ⟨h1, h2, h3⟩ := hrun
                                              refine ⟨?_, ?_, ?_, Or.inr h3.symm⟩
                                              · rw [← h1]
                                                decide
                                              · rw [← h2]
                                                decide
                                              · rw [← h2]
                                                decide
                                            · simp [ve_sync_init, ve_sync_init_loop, ve_sync_init_slot, vkCreateFence,
        ve_sync_create_semaphore, updFrame, ve_sync_shutdown, shutdownFrame,
        destroyFenceOpt, destroySemOpt, emptySyncDevice, zeroSyncState, zeroFrameSync,
                                                  f00, f01, f02, s00, s01, s02, s03, f10, f11, f12, s10, s11, s12, s13, f20, f21, f22, s20, s21, s22, s23] at hrun
                                              obtain ⟨h1, h2, h3⟩ := hrun
                                              refine ⟨?_, ?_, ?_, Or.inr h3.symm⟩
                                              · rw [← h1]
                                                decide
                                              · rw [← h2]
                                                decide
                                              · rw [← h2]
                                                decide
                                    · simp [ve_sync_init, ve_sync_init_loop, ve_sync_init_slot, vkCreateFence,
        ve_sync_create_semaphore, updFrame, ve_sync_shutdown, shutdownFrame,
        destroyFenceOpt, destroySemOpt, emptySyncDevice, zeroSyncState, zeroFrameSync,
                                          f00, f01, f02, s00, s01, s02, s03, f10, f11, f12, s10, s11, s12, s13, f20, f21, f22] at hrun
                                      obtain ⟨h1, h2, h3⟩ := hrun
                                      refine ⟨?_, ?_, ?_, Or.inl ⟨2, 2, by norm_num, by norm_num, h3.symm⟩⟩
                                      · rw [← h1]
                                        decide
                                      · rw [← h2]
                                        decide
                                      · rw [← h2]
                                        decide
                                  · simp [ve_sync_init, ve_sync_init_loop, ve_sync_init_slot, vkCreateFence,
        ve_sync_create_semaphore, updFrame, ve_sync_shutdown, shutdownFrame,
        destroyFenceOpt, destroySemOpt, emptySyncDevice, zeroSyncState, zeroFrameSync,
                                        f00, f01, f02, s00, s01, s02, s03, f10, f11, f12, s10, s11, s12, s13, f20, f21] at hrun
                                    obtain ⟨h1, h2, h3⟩ := hrun
                                    refine ⟨?_, ?_, ?_, Or.inl ⟨2, 1, by norm_num, by norm_num, h3.symm⟩⟩
                                    · rw [← h1]
                                      decide
                                    · rw [← h2]
                                      decide
                                    · rw [← h2]
                                      decide
                                · simp [ve_sync_init, ve_sync_init_loop, ve_sync_init_slot, vkCreateFence,
        ve_sync_create_semaphore, updFrame, ve_sync_shutdown, shutdownFrame,
        destroyFenceOpt, destroySemOpt, emptySyncDevice, zeroSyncState, zeroFrameSync,
                                      f00, f01, f02, s00, s01, s02, s03, f10, f11, f12, s10, s11, s12, s13, f20] at hrun
                                  obtain ⟨h1, h2, h3⟩ := hrun
                                  refine ⟨?_, ?_, ?_, Or.inl ⟨2, 0, by norm_num, by norm_num, h3.symm⟩⟩
                                  · rw [← h1]
                                    decide
                                  · rw [← h2]
                                    decide
                                  · rw [← h2]
                                    decide
                              · simp [ve_sync_init, ve_sync_init_loop, ve_sync_init_slot, vkCreateFence,
        ve_sync_create_semaphore, updFrame, ve_sync_shutdown, shutdownFrame,
        destroyFenceOpt, destroySemOpt, emptySyncDevice, zeroSyncState, zeroFrameSync,
                                    f00, f01, f02, s00, s01, s02, s03, f10, f11, f12, s10, s11, s12, s13] at hrun
                                obtain ⟨h1, h2, h3⟩ := hrun
                                refine ⟨?_, ?_, ?_, Or.inr h3.symm⟩
                                · rw [← h1]
                                  decide
                                · rw [← h2]
                                  decide
                                · rw [← h2]
                                  decide
                            · by_cases s13 : sok 1 3 = true
                              · simp [ve_sync_init, ve_sync_init_loop, ve_sync_init_slot, vkCreateFence,
        ve_sync_create_semaphore, updFrame, ve_sync_shutdown, shutdownFrame,
        destroyFenceOpt, destroySemOpt, emptySyncDevice, zeroSyncState, zeroFrameSync,
                                    f00, f01, f02, s00, s01, s02, s03, f10, f11, f12, s10, s11, s12, s13] at hrun
                                obtain ⟨h1, h2, h3⟩ := hrun
                                refine ⟨?_, ?_, ?_, Or.inr h3.symm⟩
                                · rw [← h1]
                                  decide
                                · rw [← h2]
                                  decide
                                · rw [← h2]
                                  decide
                              · simp [ve_sync_init, ve_sync_init_loop, ve_sync_init_slot, vkCreateFence,
        ve_sync_create_semaphore, updFrame, ve_sync_shutdown, shutdownFrame,
        destroyFenceOpt, destroySemOpt, emptySyncDevice, zeroSyncState, zeroFrameSync,
                                    f00, f01, f02, s00, s01, s02, s03, f10, f11, f12, s10, s11, s12, s13] at hrun
                                obtain ⟨h1, h2, h3⟩ := hrun
                                refine ⟨?_, ?_, ?_, Or.inr h3.symm⟩
                                · rw [← h1]
                                  decide
                                · rw [← h2]
                                  decide
                                · rw [← h2]
                                  decide
                          · by_cases s12 : sok 1 2 = true
                            · by_cases s13 : sok 1 3 = true
                              · simp [ve_sync_init, ve_sync_init_loop, ve_sync_init_slot, vkCreateFence,
        ve_sync_create_semaphore, updFrame, ve_sync_shutdown, shutdownFrame,
        destroyFenceOpt, destroySemOpt, emptySyncDevice, zeroSyncState, zeroFrameSync,
                                    f00, f01, f02, s00, s01, s02, s03, f10, f11, f12, s10, s11, s12, s13] at hrun
                                obtain ⟨h1, h2, h3⟩ := hrun
                                refine ⟨?_, ?_, ?_, Or.inr h3.symm⟩
                                · rw [← h1]
                                  decide
                                · rw [← h2]
                                  decide
                                · rw [← h2]
                                  decide
                              · simp [ve_sync_init, ve_sync_init_loop, ve_sync_init_slot, vkCreateFence,
        ve_sync_create_semaphore, updFrame, ve_sync_shutdown, shutdownFrame,
        destroyFenceOpt, destroySemOpt, emptySyncDevice, zeroSyncState, zeroFrameSync,
                                    f00, f01, f02, s00, s01, s02, s03, f10, f11, f12, s10, s11, s12, s13] at hrun
                                obtain ⟨h1, h2, h3⟩ := hrun
                                refine ⟨?_, ?_, ?_, Or.inr h3.symm⟩
                                · rw [← h1]
                                  decide
                                · rw [← h2]
                                  decide
                                · rw [← h2]
                                  decide
                            · by_cases s13 : sok 1 3 = true
                              · simp [ve_sync_init, ve_sync_init_loop, ve_sync_init_slot, vkCreateFence,
        ve_sync_create_semaphore, updFrame, ve_sync_shutdown, shutdownFrame,
        destroyFenceOpt, destroySemOpt, emptySyncDevice, zeroSyncState, zeroFrameSync,
                                    f00, f01, f02, s00, s01, s02, s03, f10, f11, f12, s10, s11, s12, s13] at hrun
                                obtain ⟨h1, h2, h3⟩ := hrun
                                refine ⟨?_, ?_, ?_, Or.inr h3.symm⟩
                                · rw [← h1]
                                  decide
                                · rw [← h2]
                                  decide
                                · rw [← h2]
                                  decide
                              · simp [ve_sync_init, ve_sync_init_loop, ve_sync_init_slot, vkCreateFence,
        ve_sync_create_semaphore, updFrame, ve_sync_shutdown, shutdownFrame,
        destroyFenceOpt, destroySemOpt, emptySyncDevice, zeroSyncState, zeroFrameSync,
                                    f00, f01, f02, s00, s01, s02, s03, f10, f11, f12, s10, s11, s12, s13] at hrun
                                obtain ⟨h1, h2, h3⟩ := hrun
                                refine ⟨?_, ?_, ?_, Or.inr h3.symm⟩
                                · rw [← h1]
                                  decide
                                · rw [← h2]
                                  decide
                                · rw [← h2]
                                  decide
                        · by_cases s11 : sok 1 1 = true
                          · by_cases s12 : sok 1 2 = true
                            · by_cases s13 : sok 1 3 = true
                              · simp [ve_sync_init, ve_sync_init_loop, ve_sync_init_slot, vkCreateFence,
        ve_sync_create_semaphore, updFrame, ve_sync_shutdown, shutdownFrame,
        destroyFenceOpt, destroySemOpt, emptySyncDevice, zeroSyncState, zeroFrameSync,
                                    f00, f01, f02, s00, s01, s02, s03, f10, f11, f12, s10, s11, s12, s13] at hrun
                                obtain ⟨h1, h2, h3⟩ := hrun
                                refine ⟨?_, ?_, ?_, Or.inr h3.symm⟩
                                · rw [← h1]
                                  decide
                                · rw [← h2]
                                  decide
                                · rw [← h2]
                                  decide
                              · simp [ve_sync_init, ve_sync_init_loop, ve_sync_init_slot, vkCreateFence,
        ve_sync_create_semaphore, updFrame, ve_sync_shutdown, shutdownFrame,
        destroyFenceOpt, destroySemOpt, emptySyncDevice, zeroSyncState, zeroFrameSync,
                                    f00, f01, f02, s00, s01, s02, s03, f10, f11, f12, s10, s11, s12, s13] at hrun
                                obtain ⟨h1, h2, h3⟩ := hrun
                                refine ⟨?_, ?_, ?_, Or.inr h3.symm⟩
                                · rw [← h1]
                                  decide
                                · rw [← h2]
                                  decide
                                · rw [← h2]
                                  decide
                            · by_cases s13 : sok 1 3 = true
                              · simp [ve_sync_init, ve_sync_init_loop, ve_sync_init_slot, vkCreateFence,
        ve_sync_create_semaphore, updFrame, ve_sync_shutdown, shutdownFrame,
        destroyFenceOpt, destroySemOpt, emptySyncDevice, zeroSyncState, zeroFrameSync,
                                    f00, f01, f02, s00, s01, s02, s03, f10, f11, f12, s10, s11, s12, s13] at hrun
                                obtain ⟨h1, h2, h3⟩ := hrun
                                refine ⟨?_, ?_, ?_, Or.inr h3.symm⟩
                                · rw [← h1]
                                  decide
                                · rw [← h2]
                                  decide
                                · rw [← h2]
                                  decide
                              · simp [ve_sync_init, ve_sync_init_loop, ve_sync_init_slot, vkCreateFence,
        ve_sync_create_semaphore, updFrame, ve_sync_shutdown, shutdownFrame,
        destroyFenceOpt, destroySemOpt, emptySyncDevice, zeroSyncState, zeroFrameSync,
                                    f00, f01, f02, s00, s01, s02, s03, f10, f11, f12, s10, s11, s12, s13] at hrun
                                obtain ⟨h1, h2, h3⟩ := hrun
                                refine ⟨?_, ?_, ?_, Or.inr h3.symm⟩
                                · rw [← h1]
                                  decide
                                · rw [← h2]
                                  decide
                                · rw [← h2]
                                  decide
                          · by_cases s12 : sok 1 2 = true
                            · by_cases s13 : sok 1 3 = true
                              · simp [ve_sync_init, ve_sync_init_loop, ve_sync_init_slot, vkCreateFence,
        ve_sync_create_semaphore, updFrame, ve_sync_shutdown, shutdownFrame,
        destroyFenceOpt, destroySemOpt, emptySyncDevice, zeroSyncState, zeroFrameSync,
                                    f00, f01, f02, s00, s01, s02, s03, f10, f11, f12, s10, s11, s12, s13] at hrun
                                obtain ⟨h1, h2, h3⟩ := hrun
                                refine ⟨?_, ?_, ?_, Or.inr h3.symm⟩
                                · rw [← h1]
                                  decide
                                · rw [← h2]
                                  decide
                                · rw [← h2]
                                  decide
                              · simp [ve_sync_init, ve_sync_init_loop, ve_sync_init_slot, vkCreateFence,
        ve_sync_create_semaphore, updFrame, ve_sync_shutdown, shutdownFrame,
        destroyFenceOpt, destroySemOpt, emptySyncDevice, zeroSyncState, zeroFrameSync,
                                    f00, f01, f02, s00, s01, s02, s03, f10, f11, f12, s10, s11, s12, s13] at hrun
                                obtain ⟨h1, h2, h3⟩ := hrun
                                refine ⟨?_, ?_, ?_, Or.inr h3.symm⟩
                                · rw [← h1]
                                  decide
                                · rw [← h2]
                                  decide
                                · rw [← h2]
                                  decide
                            · by_cases s13 : sok 1 3 = true
                              · simp [ve_sync_init, ve_sync_init_loop, ve_sync_init_slot, vkCreateFence,
        ve_sync_create_semaphore, updFrame, ve_sync_shutdown, shutdownFrame,
        destroyFenceOpt, destroySemOpt, emptySyncDevice, zeroSyncState, zeroFrameSync,
                                    f00, f01, f02, s00, s01, s02, s03, f10, f11, f12, s10, s11, s12, s13] at hrun
                                obtain ⟨h1, h2, h3⟩ := hrun
                                refine ⟨?_, ?_, ?_, Or.inr h3.symm⟩
                                · rw [← h1]
                                  decide
                                · rw [← h2]
                                  decide
                                · rw [← h2]
                                  decide
                              · simp [ve_sync_init, ve_sync_init_loop, ve_sync_init_slot, vkCreateFence,
        ve_sync_create_semaphore, updFrame, ve_sync_shutdown, shutdownFrame,
        destroyFenceOpt, destroySemOpt, emptySyncDevice, zeroSyncState, zeroFrameSync,
                                    f00, f01, f02, s00, s01, s02, s03, f10, f11, f12, s10, s11, s12, s13] at hrun
                                obtain ⟨h1, h2, h3⟩ := hrun
                                refine ⟨?_, ?_, ?_, Or.inr h3.symm⟩
                                · rw [← h1]
                                  decide
                                · rw [← h2]
                                  decide
                                · rw [← h2]
                                  decide
                      · simp [ve_sync_init, ve_sync_init_loop, ve_sync_init_slot, vkCreateFence,
        ve_sync_create_semaphore, updFrame, ve_sync_shutdown, shutdownFrame,
        destroyFenceOpt, destroySemOpt, emptySyncDevice, zeroSyncState, zeroFrameSync,
                            f00, f01, f02, s00, s01, s02, s03, f10, f11, f12] at hrun
                        obtain ⟨h1, h2, h3⟩ := hrun
                        refine ⟨?_, ?_, ?_, Or.inl ⟨1, 2, by norm_num, by norm_num, h3.symm⟩⟩
                        · rw [← h1]
                          decide
                        · rw [← h2]
                          decide
                        · rw [← h2]
                          decide
                    · simp [ve_sync_init, ve_sync_init_loop, ve_sync_init_slot, vkCreateFence,
        ve_sync_create_semaphore, updFrame, ve_sync_shutdown, shutdownFrame,
        destroyFenceOpt, destroySemOpt, emptySyncDevice, zeroSyncState, zeroFrameSync,
                          f00, f01, f02, s00, s01, s02, s03, f10, f11] at hrun
                      obtain ⟨h1, h2, h3⟩ := hrun
                      refine ⟨?_, ?_, ?_, Or.inl ⟨1, 1, by norm_num, by norm_num, h3.symm⟩⟩
                      · rw [← h1]
                        decide
                      · rw [← h2]
                        decide
                      · rw [← h2]
                        decide
                  · simp [ve_sync_init, ve_sync_init_loop, ve_sync_init_slot, vkCreateFence,
        ve_sync_create_semaphore, updFrame, ve_sync_shutdown, shutdownFrame,
        destroyFenceOpt, destroySemOpt, emptySyncDevice, zeroSyncState, zeroFrameSync,
                        f00, f01, f02, s00, s01, s02, s03, f10] at hrun
                    obtain ⟨h1, h2, h3⟩ := hrun
                    refine ⟨?_, ?_, ?_, Or.inl ⟨1, 0, by norm_num, by norm_num, h3.symm⟩⟩
                    · rw [← h1]
                      decide
                    · rw [← h2]
                      decide
                    · rw [← h2]
                      decide
                · simp [ve_sync_init, ve_sync_init_loop, ve_sync_init_slot, vkCreateFence,
        ve_sync_create_semaphore, updFrame, ve_sync_shutdown, shutdownFrame,
        destroyFenceOpt, destroySemOpt, emptySyncDevice, zeroSyncState, zeroFrameSync,
                      f00, f01, f02, s00, s01, s02, s03] at hrun
                  obtain ⟨h1, h2, h3⟩ := hrun
                  refine ⟨?_, ?_, ?_, Or.inr h3.symm⟩
                  · rw [← h1]
                    decide
                  · rw [← h2]
                    decide
                  · rw [← h2]
                    decide
              · by_cases s03 : sok 0 3 = true
                · simp [ve_sync_init, ve_sync_init_loop, ve_sync_init_slot, vkCreateFence,
        ve_sync_create_semaphore, updFrame, ve_sync_shutdown, shutdownFrame,
        destroyFenceOpt, destroySemOpt, emptySyncDevice, zeroSyncState, zeroFrameSync,
                      f00, f01, f02, s00, s01, s02, s03] at hrun
                  obtain ⟨h1, h2, h3⟩ := hrun
                  refine ⟨?_, ?_, ?_, Or.inr h3.symm⟩
                  · rw [← h1]
                    decide
                  · rw [← h2]
                    decide
                  · rw [← h2]
                    decide
                · simp [ve_sync_init, ve_sync_init_loop, ve_sync_init_slot, vkCreateFence,
        ve_sync_create_semaphore, updFrame, ve_sync_shutdown, shutdownFrame,
        destroyFenceOpt, destroySemOpt, emptySyncDevice, zeroSyncState, zeroFrameSync,
                      f00, f01, f02, s00, s01, s02, s03] at hrun
                  obtain ⟨h1, h2, h3⟩ := hrun
                  refine ⟨?_, ?_, ?_, Or.inr h3.symm⟩
                  · rw [← h1]
                    decide
                  · rw [← h2]
                    decide
                  · rw [← h2]
                    decide
            · by_cases s02 : sok 0 2 = true
              · by_cases s03 : sok 0 3 = true
                · simp [ve_sync_init, ve_sync_init_loop, ve_sync_init_slot, vkCreateFence,
        ve_sync_create_semaphore, updFrame, ve_sync_shutdown, shutdownFrame,
        destroyFenceOpt, destroySemOpt, emptySyncDevice, zeroSyncState, zeroFrameSync,
                      f00, f01, f02, s00, s01, s02, s03] at hrun
                  obtain ⟨h1, h2, h3⟩ := hrun
                  refine ⟨?_, ?_, ?_, Or.inr h3.symm⟩
                  · rw [← h1]
                    decide
                  · rw [← h2]
                    decide
                  · rw [← h2]
                    decide
                · simp [ve_sync_init, ve_sync_init_loop, ve_sync_init_slot, vkCreateFence,
        ve_sync_create_semaphore, updFrame, ve_sync_shutdown, shutdownFrame,
        destroyFenceOpt, destroySemOpt, emptySyncDevice, zeroSyncState, zeroFrameSync,
                      f00, f01, f02, s00, s01, s02, s03] at hrun
                  obtain ⟨h1, h2, h3⟩ := hrun
                  refine ⟨?_, ?_, ?_, Or.inr h3.symm⟩
                  · rw [← h1]
                    decide
                  · rw [← h2]
                    decide
                  · rw [← h2]
                    decide
              · by_cases s03 : sok 0 3 = true
                · simp [ve_sync_init, ve_sync_init_loop, ve_sync_init_slot, vkCreateFence,
        ve_sync_create_semaphore, updFrame, ve_sync_shutdown, shutdownFrame,
        destroyFenceOpt, destroySemOpt, emptySyncDevice, zeroSyncState, zeroFrameSync,
                      f00, f01, f02, s00, s01, s02, s03] at hrun
                  obtain ⟨h1, h2, h3⟩ := hrun
                  refine ⟨?_, ?_, ?_, Or.inr h3.symm⟩
                  · rw [← h1]
                    decide
                  · rw [← h2]
                    decide
                  · rw [← h2]
                    decide
                · simp [ve_sync_init, ve_sync_init_loop, ve_sync_init_slot, vkCreateFence,
        ve_sync_create_semaphore, updFrame, ve_sync_shutdown, shutdownFrame,
        destroyFenceOpt, destroySemOpt, emptySyncDevice, zeroSyncState, zeroFrameSync,
                      f00, f01, f02, s00, s01, s02, s03] at hrun
                  obtain ⟨h1, h2, h3⟩ := hrun
                  refine ⟨?_, ?_, ?_, Or.inr h3.symm⟩
                  · rw [← h1]
                    decide
                  · rw [← h2]
                    decide
                  · rw [← h2]
                    decide
          · by_cases s01 : sok 0 1 = true
            · by_cases s02 : sok 0 2 = true
              · by_cases s03 : sok 0 3 = true
                · simp [ve_sync_init, ve_sync_init_loop, ve_sync_init_slot, vkCreateFence,
        ve_sync_create_semaphore, updFrame, ve_sync_shutdown, shutdownFrame,
        destroyFenceOpt, destroySemOpt, emptySyncDevice, zeroSyncState, zeroFrameSync,
                      f00, f01, f02, s00, s01, s02, s03] at hrun
                  obtain ⟨h1, h2, h3⟩ := hrun
                  refine ⟨?_, ?_, ?_, Or.inr h3.symm⟩
                  · rw [← h1]
                    decide
                  · rw [← h2]
                    decide
                  · rw [← h2]
                    decide
                · simp [ve_sync_init, ve_sync_init_loop, ve_sync_init_slot, vkCreateFence,
        ve_sync_create_semaphore, updFrame, ve_sync_shutdown, shutdownFrame,
        destroyFenceOpt, destroySemOpt, emptySyncDevice, zeroSyncState, zeroFrameSync,
                      f00, f01, f02, s00, s01, s02, s03] at hrun
                  obtain ⟨h1, h2, h3⟩ := hrun
                  refine ⟨?_, ?_, ?_, Or.inr h3.symm⟩
                  · rw [← h1]
                    decide
                  · rw [← h2]
                    decide
                  · rw [← h2]
                    decide
              · by_cases s03 : sok 0 3 = true
                · simp [ve_sync_init, ve_sync_init_loop, ve_sync_init_slot, vkCreateFence,
        ve_sync_create_semaphore, updFrame, ve_sync_shutdown, shutdownFrame,
        destroyFenceOpt, destroySemOpt, emptySyncDevice, zeroSyncState, zeroFrameSync,
                      f00, f01, f02, s00, s01, s02, s03] at hrun
                  obtain ⟨h1, h2, h3⟩ := hrun
                  refine ⟨?_, ?_, ?_, Or.inr h3.symm⟩
                  · rw [← h1]
                    decide
                  · rw [← h2]
                    decide
                  · rw [← h2]
                    decide
                · simp [ve_sync_init, ve_sync_init_loop, ve_sync_init_slot, vkCreateFence,
        ve_sync_create_semaphore, updFrame, ve_sync_shutdown, shutdownFrame,
        destroyFenceOpt, destroySemOpt, emptySyncDevice, zeroSyncState, zeroFrameSync,
                      f00, f01, f02, s00, s01, s02, s03] at hrun
                  obtain ⟨h1, h2, h3⟩ := hrun
                  refine ⟨?_, ?_, ?_, Or.inr h3.symm⟩
                  · rw [← h1]
                    decide
                  · rw [← h2]
                    decide
                  · rw [← h2]
                    decide
            · by_cases s02 : sok 0 2 = true
              · by_cases s03 : sok 0 3 = true
                · simp [ve_sync_init, ve_sync_init_loop, ve_sync_init_slot, vkCreateFence,
        ve_sync_create_semaphore, updFrame, ve_sync_shutdown, shutdownFrame,
        destroyFenceOpt, destroySemOpt, emptySyncDevice, zeroSyncState, zeroFrameSync,
                      f00, f01, f02, s00, s01, s02, s03] at hrun
                  obtain ⟨h1, h2, h3⟩ := hrun
                  refine ⟨?_, ?_, ?_, Or.inr h3.symm⟩
                  · rw [← h1]
                    decide
                  · rw [← h2]
                    decide
                  · rw [← h2]
                    decide
                · simp [ve_sync_init, ve_sync_init_loop, ve_sync_init_slot, vkCreateFence,
        ve_sync_create_semaphore, updFrame, ve_sync_shutdown, shutdownFrame,
        destroyFenceOpt, destroySemOpt, emptySyncDevice, zeroSyncState, zeroFrameSync,
                      f00, f01, f02, s00, s01, s02, s03] at hrun
                  obtain ⟨h1, h2, h3⟩ := hrun
                  refine ⟨?_, ?_, ?_, Or.inr h3.symm⟩
                  · rw [← h1]
                    decide
                  · rw [← h2]
                    decide
                  · rw [← h2]
                    decide
              · by_cases s03 : sok 0 3 = true
                · simp [ve_sync_init, ve_sync_init_loop, ve_sync_init_slot, vkCreateFence,
        ve_sync_create_semaphore, updFrame, ve_sync_shutdown, shutdownFrame,
        destroyFenceOpt, destroySemOpt, emptySyncDevice, zeroSyncState, zeroFrameSync,
                      f00, f01, f02, s00, s01, s02, s03] at hrun
                  obtain ⟨h1, h2, h3⟩ := hrun
                  refine ⟨?_, ?_, ?_, Or.inr h3.symm⟩
                  · rw [← h1]
                    decide
                  · rw [← h2]
                    decide
                  · rw [← h2]
                    decide
                · simp [ve_sync_init, ve_sync_init_loop, ve_sync_init_slot, vkCreateFence,
        ve_sync_create_semaphore, updFrame, ve_sync_shutdown, shutdownFrame,
        destroyFenceOpt, destroySemOpt, emptySyncDevice, zeroSyncState, zeroFrameSync,
                      f00, f01, f02, s00, s01, s02, s03] at hrun
                  obtain ⟨h1, h2, h3⟩ := hrun
                  refine ⟨?_, ?_, ?_, Or.inr h3.symm⟩
                  · rw [← h1]
                    decide
                  · rw [← h2]
                    decide
                  · rw [← h2]
                    decide
        · simp [ve_sync_init, ve_sync_init_loop, ve_sync_init_slot, vkCreateFence,
        ve_sync_create_semaphore, updFrame, ve_sync_shutdown, shutdownFrame,
        destroyFenceOpt, destroySemOpt, emptySyncDevice, zeroSyncState, zeroFrameSync,
              f00, f01, f02] at hrun
          obtain ⟨h1, h2, h3⟩ := hrun
          refine ⟨?_, ?_, ?_, Or.inl ⟨0, 2, by norm_num, by norm_num, h3.symm⟩⟩
          · rw [← h1]
            decide
          · rw [← h2]
            decide
          · rw [← h2]
            decide
      · simp [ve_sync_init, ve_sync_init_loop, ve_sync_init_slot, vkCreateFence,
        ve_sync_create_semaphore, updFrame, ve_sync_shutdown, shutdownFrame,
        destroyFenceOpt, destroySemOpt, emptySyncDevice, zeroSyncState, zeroFrameSync,
            f00, f01] at hrun
        obtain ⟨h1, h2, h3⟩ := hrun
        refine ⟨?_, ?_, ?_, Or.inl ⟨0, 1, by norm_num, by norm_num, h3.symm⟩⟩
        · rw [← h1]
          decide
        · rw [← h2]
          decide
        · rw [← h2]
          decide
    · simp [ve_sync_init, ve_sync_init_loop, ve_sync_init_slot, vkCreateFence,
        ve_sync_create_semaphore, updFrame, ve_sync_shutdown, shutdownFrame,
        destroyFenceOpt, destroySemOpt, emptySyncDevice, zeroSyncState, zeroFrameSync,
          f00] at hrun
      obtain ⟨h1, h2, h3⟩ := hrun
      refine ⟨?_, ?_, ?_, Or.inl ⟨0, 0, by norm_num, by norm_num, h3.symm⟩⟩
      · rw [← h1]
        decide
      · rw [← h2]
        decide
      · rw [← h2]
        decide

/--
C6 witness: a run where every creation succeeds yields VK_SUCCESS and three
filled slots.
-/
theorem c6_sync_init_spec_witness :
    (ve_sync_init false (fun _ _ => VK_SUCCESS) (fun _ _ => true) emptySyncDevice).2.2 =
      VK_SUCCESS ∧
    (ve_sync_init false (fun _ _ => VK_SUCCESS) (fun _ _ => true)
      emptySyncDevice).1.frames.length = 3 := by
  have h := (c6_sync_init_spec false (fun _ _ => VK_SUCCESS) (fun _ _ => true)
      (ve_sync_init false (fun _ _ => VK_SUCCESS) (fun _ _ => true) emptySyncDevice).1
      (ve_sync_init false (fun _ _ => VK_SUCCESS) (fun _ _ => true) emptySyncDevice).2.1
      (ve_sync_init false (fun _ _ => VK_SUCCESS) (fun _ _ => true) emptySyncDevice).2.2
      rfl).1 (fun _ _ _ _ => rfl) (fun _ _ _ _ => rfl)
  exact ⟨h.1, h.2.1⟩

end VlkEngine
